import Mathlib

/-
Verification of the invoice reporting engine in
`backend/python-scripts/report_generation.py`.

The embedding models Python values that can occur in an OCR-extracted
invoice mapping by the inductive type `Val` (null, string, number, list,
dict).  Python floats are modelled by exact rationals `ℚ`; `round(x, 2)`
is modelled by round-half-to-even on the scaled rational, matching
Python's documented rounding mode.  Python functions that can raise are
embedded with `Except String` results; functions that cannot raise are
plain Lean functions.  Truthiness of Python values (`or`, `if x:`,
`not x`) is modelled explicitly.
-/

namespace ReportGen

/-- Model of a Python value as found in an OCR-extracted invoice dict:
`None`, `str`, numeric (`int`/`float`, modelled by `ℚ`), `list`, `dict`. -/
inductive Val where
  | vnull : Val
  | vstr (s : String) : Val
  | vnum (q : ℚ) : Val
  | vlist (l : List Val) : Val
  | vdict (l : List (String × Val)) : Val
deriving Repr

/-- Python truthiness: `None`, `""`, `0`, `[]`, `{}` are falsy. -/
def Val.truthy : Val → Bool
  | .vnull => false
  | .vstr s => !s.isEmpty
  | .vnum q => decide (q ≠ 0)
  | .vlist l => !l.isEmpty
  | .vdict l => !l.isEmpty

/-- Python `a or b` (returns `a` when truthy, else `b`). -/
def orV (a b : Val) : Val := if a.truthy then a else b

/-- First-match association-list lookup, modelling Python dict lookup. -/
def alookup {κ β : Type} [DecidableEq κ] : List (κ × β) → κ → Option β
  | [], _ => none
  | (k, v) :: t, k₀ => if k = k₀ then some v else alookup t k₀

/-- A raw OCR-extracted invoice: a Python dict from field label to value. -/
abbrev RawDict := List (String × Val)

/-- Python `d.get(k)` (default `None`). -/
def dget (d : RawDict) (k : String) : Val := (alookup d k).getD .vnull

/-- Python `d.get(k, dflt)`. -/
def dgetD (d : RawDict) (k : String) (dflt : Val) : Val := (alookup d k).getD dflt

/-- Digit run to natural number. -/
def digitsVal (l : List Char) : ℕ :=
  l.foldl (fun a c => a * 10 + (c.toNat - 48)) 0

/-- Model of Python `float(s)` on a string containing only digits, `.`
and `-` (the shapes reaching it in this program): optional single
leading minus, an integer part and an optional fractional part, with at
least one digit overall and nothing else; `none` models `ValueError`. -/
def floatCore (l : List Char) : Option ℚ :=
  let p : Bool × List Char := match l with
    | '-' :: r => (true, r)
    | _ => (false, l)
  let d1 := p.2.takeWhile Char.isDigit
  let r1 := p.2.dropWhile Char.isDigit
  match r1 with
  | [] =>
      if d1.isEmpty then none
      else some (if p.1 then -(digitsVal d1 : ℚ) else (digitsVal d1 : ℚ))
  | '.' :: r2 =>
      let d2 := r2.takeWhile Char.isDigit
      let r3 := r2.dropWhile Char.isDigit
      if r3.isEmpty then
        if d1.isEmpty && d2.isEmpty then none
        else
          let q : ℚ := (digitsVal d1 : ℚ) + (digitsVal d2 : ℚ) / (10 : ℚ) ^ d2.length
          some (if p.1 then -q else q)
      else none
  | _ => none

/-- Characters kept by `re.sub(r'[^\d.\-]', '', s)`. -/
def keepAmountChar (c : Char) : Bool := c.isDigit || c = '.' || c = '-'

/-- The token matched by the regex `\d+[.,]?\d*` when anchored at a digit:
a greedy digit run, optionally one `.` or `,` followed by further digits. -/
def numTokenAt (l : List Char) : List Char :=
  let d1 := l.takeWhile Char.isDigit
  let r1 := l.dropWhile Char.isDigit
  match r1 with
  | '.' :: r2 => d1 ++ '.' :: r2.takeWhile Char.isDigit
  | ',' :: r2 => d1 ++ ',' :: r2.takeWhile Char.isDigit
  | _ => d1

/-- `re.search(r'(\d+[.,]?\d*)', s)`: first match, scanning left to right. -/
def firstNumToken : List Char → Option (List Char)
  | [] => none
  | c :: rest => if c.isDigit then some (numTokenAt (c :: rest)) else firstNumToken rest

/-- Decimal rendering of a rational, modelling Python `str()` on a number
(12 fractional digits suffice for every value this program produces). -/
def qRepr (q : ℚ) : String :=
  let sgn := if q < 0 then "-" else ""
  let a := |q|
  let ip : ℕ := a.floor.toNat
  let st := (List.range 12).foldl
    (fun (st : String × ℚ) _ =>
      let x := st.2 * 10
      let d : ℕ := x.floor.toNat
      (st.1 ++ toString d, x - (d : ℚ))) ("", a - (ip : ℚ))
  let trimmed := (st.1.data.reverse.dropWhile (fun c => c = '0')).reverse
  let fracs := if trimmed.isEmpty then "0" else String.mk trimmed
  sgn ++ toString ip ++ "." ++ fracs

mutual

/-- Model of Python `str(v)`.  Strings are returned unchanged (the only
case the claims exercise); containers are rendered with their entries. -/
def strOfVal : Val → String
  | .vnull => "None"
  | .vstr s => s
  | .vnum q => qRepr q
  | .vlist l => "[" ++ strOfList l ++ "]"
  | .vdict l => "\x7b" ++ strOfPairs l ++ "\x7d"

/-- Comma-joined rendering of list elements (part of the `str()` model). -/
def strOfList : List Val → String
  | [] => ""
  | [v] => strOfVal v
  | v :: w :: rest => strOfVal v ++ ", " ++ strOfList (w :: rest)

/-- Comma-joined rendering of dict entries (part of the `str()` model). -/
def strOfPairs : List (String × Val) → String
  | [] => ""
  | [(k, v)] => k ++ ": " ++ strOfVal v
  | (k, v) :: w :: rest => k ++ ": " ++ strOfVal v ++ ", " ++ strOfPairs (w :: rest)

end

/-- `parse_amount`: safe parse of a money value to a rational, or `none`. -/
def parse_amount (v : Val) : Option ℚ :=
  match v with
  | .vnull => none
  | .vnum q => some q
  | _ =>
    let s := strOfVal v
    let s2 := s.data.filter keepAmountChar
    if s2.isEmpty then none
    else
      match floatCore s2 with
      | some q => some q
      | none =>
        match firstNumToken s.data with
        | some tok => floatCore (tok.filter (fun c => c ≠ ','))
        | none => none

/-- Python `s.strip()` on the character list of a string. -/
def pyStrip (l : List Char) : List Char :=
  ((l.dropWhile Char.isWhitespace).reverse.dropWhile Char.isWhitespace).reverse

/-- A calendar date as produced by the date parser. -/
structure PyDate where
  year : ℕ
  month : ℕ
  day : ℕ
deriving DecidableEq, Repr

/-- Structural splitter with the semantics of `String.split`: split at
every separator, keeping empty pieces. -/
def splitChars (p : Char → Bool) : List Char → List Char → List String
  | [], acc => [String.mk acc.reverse]
  | c :: rest, acc =>
      if p c then String.mk acc.reverse :: splitChars p rest []
      else splitChars p rest (c :: acc)

/-- Tokens of a date string split on `/` and `-`. -/
def dateTokens (s : String) : List String :=
  splitChars (fun c => c = '/' || c = '-') s.data []

/-- A token that is a nonempty digit run, as a number (with its length). -/
def natToken (s : String) : Option (ℕ × ℕ) :=
  if !s.isEmpty && s.data.all Char.isDigit then some (digitsVal s.data, s.length) else none

/-- Month/day validity used by the date model. -/
def validMD (m d : ℕ) : Bool := 1 ≤ m && m ≤ 12 && 1 ≤ d && d ≤ 31

/-- Modelled from the spec: `dateutil.parser.parse` is an external library
(not part of this repository).  This models its documented behaviour on
purely numeric `a/b/c` (or `a-b-c`) dates: a leading 4-digit token is the
year (then month before day); otherwise the year is the trailing token
(4-digit, or 2-digit mapped into the 2000s) and the `dayfirst` flag
chooses between the day/month readings of the two leading tokens, with a
swap when the preferred reading is not a valid month/day. -/
def dateutilParseNumeric (dayfirst : Bool) (s : String) : Option PyDate :=
  match (dateTokens s).mapM natToken with
  | some [(a, la), (b, _), (c, lc)] =>
      if la = 4 then
        -- year-first form, e.g. "2024-03-15"
        if validMD b c then some ⟨a, b, c⟩ else none
      else
        match (if lc = 4 then some c else if lc ≤ 2 then some (2000 + c) else none) with
        | none => none
        | some y =>
            if dayfirst then
              if validMD b a then some ⟨y, b, a⟩
              else if validMD a b then some ⟨y, a, b⟩ else none
            else
              if validMD a b then some ⟨y, a, b⟩
              else if validMD b a then some ⟨y, b, a⟩ else none
  | _ => none

/-- `parse_date_safe`: `None` stays `None`; otherwise a lenient parse of
`str(s)` with `dayfirst=False`, returning `none` on any failure. -/
def parse_date_safe (v : Val) : Option PyDate :=
  match v with
  | .vnull => none
  | _ => dateutilParseNumeric false (strOfVal v)

/-- First position where two consecutive digits occur: `re.search(r'(\d{2})', s)`. -/
def firstTwoDigits : List Char → Option String
  | [] => none
  | [_] => none
  | a :: b :: rest =>
      if a.isDigit && b.isDigit then some (String.mk [a, b])
      else firstTwoDigits (b :: rest)

/-- `gst_state_code_from_gstin`: the first two characters of the stripped
GSTIN when both are digits, else the first 2-digit run, else `None`. -/
def gst_state_code_from_gstin (g : Val) : Option String :=
  if !g.truthy then none
  else
    let s := pyStrip (strOfVal g).data
    if 2 ≤ s.length && (s.take 2).all Char.isDigit then some (String.mk (s.take 2))
    else firstTwoDigits s

/-- Round-half-to-even to an integer, as Python `round` does. -/
def roundHalfEven (q : ℚ) : ℤ :=
  let f := ⌊q⌋
  let r := q - (f : ℚ)
  if r < 1 / 2 then f
  else if 1 / 2 < r then f + 1
  else if f % 2 = 0 then f else f + 1

/-- Python `round(q, 2)`. -/
def pyRound2 (q : ℚ) : ℚ := (roundHalfEven (q * 100) : ℚ) / 100

/-- Python `x or d` for an optional number `x` (both `None` and `0` give `d`). -/
def pyOrOQ (o : Option ℚ) (d : ℚ) : ℚ :=
  match o with
  | some q => if q = 0 then d else q
  | none => d

/-- Truthiness of an optional number (`None` and `0` are falsy). -/
def truthyOQ (o : Option ℚ) : Bool :=
  match o with
  | some q => decide (q ≠ 0)
  | none => false

/-- Truthiness of an optional string (`None` and `""` are falsy). -/
def truthyOS (o : Option String) : Bool :=
  match o with
  | some s => !s.isEmpty
  | none => false

/-- A normalized line item as built by `normalize_invoice`. -/
structure NormItem where
  description : String
  hsn : Option String
  qty : ℚ
  unit_price : ℚ
  line_total : Option ℚ
  gst_rate : Option ℚ
  gst_amount : Option ℚ
deriving DecidableEq, Repr

/-- A normalized invoice (the dict built by `normalize_invoice` and
enriched by `compute_invoice_tax_breakup`).  Fields the code reads with
`.get` before they are assigned are `Option`s defaulting to `none`. -/
structure NormInv where
  invoice_id : Val
  raw_invoice_id : Val
  invoice_date : Option PyDate
  supplier_gstin : Val
  customer_gstin : Val
  place_of_supply : Val
  items : List NormItem
  taxable_total : Option ℚ
  cgst : Option ℚ
  sgst : Option ℚ
  igst : Option ℚ
  total_tax : Option ℚ
  grand_total : Option ℚ
  classification_inter_state : Option Bool := none
  classification_reason : Option String := none
  raw_extracted : RawDict := []

attribute [ext] NormInv

/-- Date separators accepted by the raw-text fallback regex. -/
def isSep (c : Char) : Bool := c = '/' || c = '-'

/-- Take exactly `n` leading digits, returning them and the remainder. -/
def takeDigitsExact (n : ℕ) (l : List Char) : Option (List Char × List Char) :=
  let d := l.take n
  if d.length = n && d.all Char.isDigit then some (d, l.drop n) else none

/-- The `\d{2,4}` tail of the date regex: a greedy 2-4 digit year. -/
def dateYearRun (l : List Char) : Option (List Char) :=
  let y := (l.takeWhile Char.isDigit).take 4
  if 2 ≤ y.length then some y else none

/-- Match of `\d{1,2}[\/\-]\d{1,2}[\/\-]\d{2,4}` anchored at a position
(greedy, trying the two-digit readings first as the regex engine does). -/
def dateLikeAt (l : List Char) : Option (List Char) :=
  let part2 : List Char → Option (List Char) := fun l2 =>
    let go : ℕ → Option (List Char) := fun n =>
      match takeDigitsExact n l2 with
      | some (b, r) =>
          match r with
          | s :: r2 =>
              if isSep s then
                match dateYearRun r2 with
                | some y => some (b ++ s :: y)
                | none => none
              else none
          | [] => none
      | none => none
    match go 2 with
    | some t => some t
    | none => go 1
  let go1 : ℕ → Option (List Char) := fun n =>
    match takeDigitsExact n l with
    | some (a, r) =>
        match r with
        | s :: r2 =>
            if isSep s then (part2 r2).map (fun t => a ++ s :: t) else none
        | [] => none
    | none => none
  match go1 2 with
  | some t => some t
  | none => go1 1

/-- `re.search` for the date-like pattern: first matching position. -/
def findDateLike : List Char → Option (List Char)
  | [] => none
  | c :: rest =>
      match dateLikeAt (c :: rest) with
      | some t => some t
      | none => findDateLike rest

/-- Normalization of one raw line item (the body of the items loop in
`normalize_invoice`), given that the raw item is a dict. -/
def normItemOfRaw (it : RawDict) : NormItem :=
  let descV := orV (dget it "Item Name") (orV (dget it "Item") (orV (dget it "description") (.vstr "")))
  let hsnV := orV (dget it "HSN/SAC Code") (dget it "HSN")
  let qty := pyOrOQ (parse_amount (orV (dget it "Quantity") (orV (dget it "Qty") (.vnum 1)))) 1
  let unit_price := pyOrOQ (parse_amount (orV (dget it "Unit Price") (orV (dget it "Rate") (.vnum 0)))) 0
  { description := String.mk (pyStrip (strOfVal descV).data)
    hsn := if hsnV.truthy then some (String.mk (pyStrip (strOfVal hsnV).data)) else none
    qty := qty
    unit_price := unit_price
    line_total := parse_amount (orV (dget it "Line Total") (orV (dget it "Amount") (.vnum (qty * unit_price))))
    gst_rate :=
      if (dget it "GST Rate").truthy then
        floatCore (pyStrip ((strOfVal (dget it "GST Rate")).replace "%" "").data)
      else none
    gst_amount := parse_amount (orV (dget it "GST Amount") (orV (dget it "Tax Amount") .vnull)) }

/-- An item's taxable contribution `line_total or (qty * unit_price or 0.0)`. -/
def itemLineContrib (it : NormItem) : ℚ := pyOrOQ it.line_total (it.qty * it.unit_price)

/-- The invoice-date block of `normalize_invoice`: primary parse of the
`Invoice Date` field, with the raw-text regex fallback; `re.search` on a
non-string `raw_text` raises `TypeError`. -/
def resolve_invoice_date (e : RawDict) : Except String (Option PyDate) :=
  match parse_date_safe (dget e "Invoice Date") with
  | some d => .ok (some d)
  | none =>
      match dgetD e "raw_text" (.vstr "") with
      | .vstr s =>
          .ok (match findDateLike s.data with
               | some t => parse_date_safe (.vstr (String.mk t))
               | none => none)
      | _ => .error "TypeError: expected string or bytes-like object"

/-- The body of the items loop: items are normalized left to right, and
`.get` on a non-dict entry raises `AttributeError` at that entry. -/
def normItemsList : List Val → Except String (List NormItem)
  | [] => .ok []
  | v :: t =>
      match v with
      | .vdict d => (normItemsList t).map (fun its => normItemOfRaw d :: its)
      | _ => .error "AttributeError: value has no attribute get"

/-- The items block of `normalize_invoice`: each entry of a nonempty
`Items` list is normalized; a non-list `Items` yields no items. -/
def resolve_items (e : RawDict) : Except String (List NormItem) :=
  match orV (dget e "Items") (.vlist []) with
  | .vlist l => if l.isEmpty then .ok [] else normItemsList l
  | _ => .ok []

/-- `normalize_invoice`: convert a raw OCR-extracted dict into a
normalized invoice.  The two statements in the source that can raise on
malformed input are embedded as `Except.error`: `re.search` applied to a
non-string `raw_text`, and `.get` on a non-dict entry of `Items`. -/
def normalize_invoice (e : RawDict) : Except String NormInv :=
  match resolve_invoice_date e with
  | .error msg => .error msg
  | .ok invdate =>
    match resolve_items e with
    | .error msg => .error msg
    | .ok items =>
      let taxable0 := parse_amount (orV (dget e "Taxable Amount") (orV (dget e "Taxable") .vnull))
      .ok {
        invoice_id := orV (dget e "Invoice Number") (orV (dget e "invoice_no") .vnull)
        raw_invoice_id := dget e "Invoice Number"
        invoice_date := invdate
        supplier_gstin := orV (dget e "Vendor GSTIN") (dget e "Vendor GSTIN ")
        customer_gstin := orV (dget e "Customer GSTIN") .vnull
        place_of_supply := orV (dget e "Vendor Address") (dget e "Customer Address")
        items := items
        taxable_total :=
          if !truthyOQ taxable0 && !items.isEmpty then
            some (pyRound2 ((items.map itemLineContrib).sum))
          else taxable0
        cgst := parse_amount (orV (dget e "CGST Amount") (orV (dget e "CGST") .vnull))
        sgst := parse_amount (orV (dget e "SGST Amount") (orV (dget e "SGST") .vnull))
        igst := parse_amount (orV (dget e "IGST Amount") (orV (dget e "IGST") .vnull))
        total_tax := parse_amount (orV (dget e "Total Tax") (orV (dget e "Total Tax ") .vnull))
        grand_total := parse_amount (orV (dget e "Total Amount") (orV (dget e "Grand Total") .vnull))
        raw_extracted := e }

/-- `re.search(r'\((\d{1,2})\)', s)`: first parenthesised 1-2 digit code
(the regex engine tries the two-digit reading before the one-digit one). -/
def parenCode : List Char → Option String
  | [] => none
  | c :: rest =>
      if c = '(' then
        match rest with
        | d1 :: tail =>
            if d1.isDigit then
              match tail with
              | d2 :: tail2 =>
                  if d2.isDigit then
                    match tail2 with
                    | ')' :: _ => some (String.mk [d1, d2])
                    | _ => parenCode rest
                  else if d2 = ')' then some (String.mk [d1])
                  else parenCode rest
              | [] => parenCode rest
            else parenCode rest
        | [] => none
      else parenCode rest

/-- Python `s.zfill(2)`. -/
def zfill2 (s : String) : String := if s.length < 2 then "0" ++ s else s

/-- `classify_inter_state`: compare supplier and customer state codes;
fall back to a parenthesised state code in `place_of_supply`.  (The state
codes returned by `gst_state_code_from_gstin` are always nonempty, so
Python's truthiness test on them coincides with `isSome`.) -/
def classify_inter_state (inv : NormInv) : Option Bool × String :=
  let sup_code := gst_state_code_from_gstin inv.supplier_gstin
  let cus_code := gst_state_code_from_gstin inv.customer_gstin
  match sup_code, cus_code with
  | some sc, some cc => (some (decide (sc ≠ cc)), sc ++ " vs " ++ cc)
  | _, _ =>
      if inv.place_of_supply.truthy then
        match parenCode (strOfVal inv.place_of_supply).data with
        | some code =>
            let pcode := zfill2 code
            match sup_code with
            | some sc => (some (decide (sc ≠ pcode)), sc ++ " vs " ++ pcode)
            | none => (none, "unknown")
        | none => (none, "unknown")
      else (none, "unknown")

/-- The local `total` of the first block of `compute_invoice_tax_breakup`:
item-level tax from explicit GST amounts or `rate * line_total / 100`. -/
def items_tax_total (items : List NormItem) : ℚ :=
  items.foldl (fun acc it =>
    if truthyOQ it.gst_amount then acc + it.gst_amount.getD 0
    else if truthyOQ it.gst_rate && it.line_total.isSome then
      acc + it.line_total.getD 0 * it.gst_rate.getD 0 / 100
    else acc) 0

/-- First block of `compute_invoice_tax_breakup`: derive `total_tax` from
item-level GST amounts or rates when it is missing. -/
def tax_from_items (inv : NormInv) : NormInv :=
  if !inv.items.isEmpty && !truthyOQ inv.total_tax then
    if 0 < items_tax_total inv.items then
      { inv with total_tax := some (pyRound2 (items_tax_total inv.items)) }
    else inv
  else inv

/-- Second block: run `classify_inter_state` and store both outputs. -/
def classify_step (inv : NormInv) : NormInv :=
  let c := classify_inter_state inv
  { inv with classification_inter_state := c.1, classification_reason := some c.2 }

/-- `(igst or 0) + (cgst or 0) + (sgst or 0)`. -/
def dsum (inv : NormInv) : ℚ := pyOrOQ inv.igst 0 + pyOrOQ inv.cgst 0 + pyOrOQ inv.sgst 0

/-- Body of the third block, with the local `tt = total_tax or 0.0` as a
parameter: when `tt` is truthy and igst/cgst/sgst are all unset, fill
them according to the stored classification. -/
def splitWith (tt : ℚ) (inv : NormInv) : NormInv :=
  if tt ≠ 0 then
    if inv.igst = none ∧ inv.cgst = none ∧ inv.sgst = none then
      match inv.classification_inter_state with
      | some true =>
          { inv with igst := some (pyRound2 tt), cgst := some 0, sgst := some 0 }
      | some false =>
          { inv with cgst := some (pyRound2 (tt / 2)), sgst := some (pyRound2 (tt / 2)),
                     igst := some 0 }
      | none =>
          { inv with igst := some (pyOrOQ inv.igst 0), cgst := some (pyOrOQ inv.cgst 0),
                     sgst := some (pyOrOQ inv.sgst 0) }
    else inv
  else inv

/-- Third block of `compute_invoice_tax_breakup`. -/
def split_step (inv : NormInv) : NormInv :=
  splitWith (pyOrOQ inv.total_tax 0) inv

/-- Fourth block: backfill `taxable_total` and `total_tax`. -/
def backfill_step (inv : NormInv) : NormInv :=
  { inv with taxable_total := some (pyOrOQ inv.taxable_total 0),
             total_tax := some (pyOrOQ inv.total_tax (dsum inv)) }

/-- `compute_invoice_tax_breakup`: the four blocks in source order
(the source first takes `dict(inv)`, a copy, so the input is unchanged). -/
def compute_invoice_tax_breakup (inv : NormInv) : NormInv :=
  backfill_step (split_step (classify_step (tax_from_items inv)))

/-- Zero-pad a natural to two digits (`%m`). -/
def pad2 (n : ℕ) : String := if n < 10 then "0" ++ toString n else toString n

/-- Zero-pad a natural to four digits (`%Y`). -/
def pad4 (n : ℕ) : String :=
  if n < 10 then "000" ++ toString n
  else if n < 100 then "00" ++ toString n
  else if n < 1000 then "0" ++ toString n
  else toString n

/-- The period key of an invoice: `invoice_date.strftime("%Y-%m")`, or
the sentinel `"unknown"` when there is no date. -/
def invPeriod (inv : NormInv) : String :=
  match inv.invoice_date with
  | none => "unknown"
  | some d => pad4 d.year ++ "-" ++ pad2 d.month

/-- One pre-grouping summary row (the dict appended to `rows`). -/
structure InvRow where
  period : String
  invoice_id : Val
  taxable_value : ℚ
  igst : ℚ
  cgst : ℚ
  sgst : ℚ
  total_tax : ℚ
  invoice_value : ℚ

/-- The row built for one invoice in `aggregate_invoices_for_period`. -/
def rowOf (inv : NormInv) : InvRow :=
  { period := invPeriod inv
    invoice_id := inv.invoice_id
    taxable_value := pyOrOQ inv.taxable_total 0
    igst := pyOrOQ inv.igst 0
    cgst := pyOrOQ inv.cgst 0
    sgst := pyOrOQ inv.sgst 0
    total_tax := pyOrOQ inv.total_tax 0
    invoice_value := pyOrOQ inv.grand_total (pyOrOQ inv.taxable_total 0 + pyOrOQ inv.total_tax 0) }

/-- The rate-breakdown key of an item: `it.get('gst_rate') or 'unknown'`
(`none` models the string key `'unknown'`; a zero rate is falsy). -/
def rateKey (it : NormItem) : Option ℚ :=
  match it.gst_rate with
  | some q => if q = 0 then none else some q
  | none => none

/-- One rate-breakdown contribution: period, rate key, taxable value. -/
structure Contrib where
  period : String
  rate : Option ℚ
  taxable : ℚ

/-- All rate-breakdown contributions of a batch, in iteration order. -/
def contribsOf (invs : List NormInv) : List Contrib :=
  invs.flatMap (fun inv => inv.items.map (fun it =>
    { period := invPeriod inv, rate := rateKey it, taxable := itemLineContrib it }))

/-- Python dict mutation `d.setdefault(k, dflt); f` applied at key `k`:
the first occurrence of `k` is updated in place, and a missing key is
appended at the end with value `f dflt` (insertion order preserved). -/
def upd {κ β : Type} [DecidableEq κ] (k : κ) (f : β → β) (dflt : β) :
    List (κ × β) → List (κ × β)
  | [] => [(k, f dflt)]
  | (k', v) :: t => if k' = k then (k', f v) :: t else (k', v) :: upd k f dflt t

/-- The inner dict of a rate breakdown: rate key to summed taxable value. -/
abbrev RateDict := List (Option ℚ × ℚ)

/-- `rate_breakdown`: period to rate dict, in insertion order. -/
abbrev RateBreakdown := List (String × RateDict)

/-- One step of rate-breakdown accumulation:
`rb.setdefault(period, {}); rb[period].setdefault(rate, 0.0); rb[period][rate] += taxable`. -/
def rbInsert (rb : RateBreakdown) (c : Contrib) : RateBreakdown :=
  upd c.period (fun rd => upd c.rate (fun x => x + c.taxable) 0 rd) [] rb

/-- One row of the grouped period summary. -/
structure SummaryRow where
  period : String
  invoice_count : ℕ
  total_taxable_value : ℚ
  total_igst : ℚ
  total_cgst : ℚ
  total_sgst : ℚ
  total_tax : ℚ
  total_invoice_value : ℚ
deriving DecidableEq, Repr

/-- The pandas `groupby('period').agg(...)` result for one period:
`('invoice_id', 'count')` counts the non-null ids in the group, and every
monetary column is summed and rounded to 2 decimals. -/
def summaryRowFor (rows : List InvRow) (p : String) : SummaryRow :=
  let g := rows.filter (fun r => decide (r.period = p))
  { period := p
    invoice_count := (g.filter (fun r =>
        match r.invoice_id with
        | .vnull => false
        | _ => true)).length
    total_taxable_value := pyRound2 ((g.map (·.taxable_value)).sum)
    total_igst := pyRound2 ((g.map (·.igst)).sum)
    total_cgst := pyRound2 ((g.map (·.cgst)).sum)
    total_sgst := pyRound2 ((g.map (·.sgst)).sum)
    total_tax := pyRound2 ((g.map (·.total_tax)).sum)
    total_invoice_value := pyRound2 ((g.map (·.invoice_value)).sum) }

/-- `aggregate_invoices_for_period`: per-invoice rows, the rate breakdown,
and the per-period grouped summary (pandas sorts group keys ascending);
an empty batch yields an empty summary and an empty breakdown. -/
def aggregate_invoices_for_period (invs : List NormInv) :
    List SummaryRow × RateBreakdown :=
  let rows := invs.map rowOf
  let rb := (contribsOf invs).foldl rbInsert []
  if rows.isEmpty then ([], [])
  else
    let periods := List.insertionSort (fun a b : String => a ≤ b) ((rows.map (·.period)).dedup)
    (periods.map (summaryRowFor rows), rb)

/-- One per-period entry built by `filing_assistant`. -/
structure FilingEntry where
  total_taxable_value : ℚ := 0
  total_tax : ℚ := 0
  total_invoice_value : ℚ := 0
  invoice_count : ℕ := 0
  recommendation : String := ""
  tax_to_pay : ℚ := 0
  anomalies : List (Val × String) := []
  rate_breakdown : RateDict := []
  summary_text : String := ""

/-- Python dict assignment `d[k] = v` (replace in place or append). -/
def dictAssign {β : Type} (d : List (String × β)) (k : String) (v : β) :
    List (String × β) :=
  upd k (fun _ => v) v d

/-- Python mutation of `d[k]` where a missing key raises `KeyError`. -/
def dictModifyE {β : Type} (k : String) (f : β → β) :
    List (String × β) → Except String (List (String × β))
  | [] => .error ("KeyError: " ++ k)
  | (k', v) :: t =>
      if k' = k then .ok ((k', f v) :: t)
      else (dictModifyE k f t).map (fun t' => (k', v) :: t')

/-- `per_period[period]['anomalies'].append(...)`. -/
def appendAnom (d : List (String × FilingEntry)) (period : String) (inv : NormInv)
    (issue : String) : Except String (List (String × FilingEntry)) :=
  dictModifyE period
    (fun ent => { ent with anomalies := ent.anomalies ++ [(inv.invoice_id, issue)] }) d

/-- `f"{q:.2f}"`. -/
def fmt2 (q : ℚ) : String :=
  let r := roundHalfEven (q * 100)
  let a := r.natAbs
  (if r < 0 then "-" else "") ++ toString (a / 100) ++ "." ++ pad2 (a % 100)

/-- Missing-supplier-GSTIN check of the anomaly scan. -/
def anomStep1 (inv : NormInv) (d : List (String × FilingEntry)) :
    Except String (List (String × FilingEntry)) :=
  if !inv.supplier_gstin.truthy then
    appendAnom d (invPeriod inv) inv "Missing supplier GSTIN"
  else .ok d

/-- Missing-customer-GSTIN check of the anomaly scan. -/
def anomStep2 (inv : NormInv) (d : List (String × FilingEntry)) :
    Except String (List (String × FilingEntry)) :=
  if !inv.customer_gstin.truthy then
    appendAnom d (invPeriod inv) inv "Missing customer GSTIN"
  else .ok d

/-- Per-item missing-HSN checks of the anomaly scan. -/
def anomStep3 (inv : NormInv) (d : List (String × FilingEntry)) :
    Except String (List (String × FilingEntry)) :=
  if !inv.items.isEmpty then
    inv.items.foldlM (fun acc it =>
      if !truthyOS it.hsn then
        appendAnom acc (invPeriod inv) inv ("Missing HSN for item '" ++ it.description ++ "'")
      else .ok acc) d
  else .ok d

/-- Taxable-mismatch check of the anomaly scan. -/
def anomStep4 (inv : NormInv) (d : List (String × FilingEntry)) :
    Except String (List (String × FilingEntry)) :=
  if !inv.items.isEmpty && truthyOQ inv.taxable_total then
    if 1 / 2 < |pyRound2 ((inv.items.map (fun it =>
        it.line_total.getD (it.qty * it.unit_price))).sum) -
        pyRound2 (pyOrOQ inv.taxable_total 0)| then
      appendAnom d (invPeriod inv) inv
        ("Taxable mismatch: sum(items)=" ++
         qRepr (pyRound2 ((inv.items.map (fun it =>
           it.line_total.getD (it.qty * it.unit_price))).sum)) ++
         " vs taxable_total=" ++ qRepr (pyRound2 (pyOrOQ inv.taxable_total 0)))
    else .ok d
  else .ok d

/-- Unknown-classification check of the anomaly scan. -/
def anomStep5 (inv : NormInv) (d : List (String × FilingEntry)) :
    Except String (List (String × FilingEntry)) :=
  if inv.classification_inter_state = none then
    appendAnom d (invPeriod inv) inv
      "Inter/intra classification unknown (missing GSTIN or place of supply). Please review."
  else .ok d

/-- The anomaly scan of one invoice in `filing_assistant` (checks in
source order; each append raises `KeyError` when the invoice's period is
not a key of `per_period`). -/
def anomaliesStep (d : List (String × FilingEntry)) (inv : NormInv) :
    Except String (List (String × FilingEntry)) := do
  let d ← anomStep1 inv d
  let d ← anomStep2 inv d
  let d ← anomStep3 inv d
  let d ← anomStep4 inv d
  anomStep5 inv d

/-- The seeding loop of `filing_assistant`: one default entry per period. -/
def seedEntries (periods : List String) : List (String × FilingEntry) :=
  periods.foldl (fun acc p => dictAssign acc p {}) []

/-- The per-summary-row update loop body of `filing_assistant`. -/
def applyRow (acc : List (String × FilingEntry)) (row : SummaryRow) :
    Except String (List (String × FilingEntry)) := do
  let acc ← dictModifyE row.period (fun ent =>
    { ent with total_taxable_value := row.total_taxable_value
               total_tax := row.total_tax
               total_invoice_value := row.total_invoice_value
               invoice_count := row.invoice_count
               tax_to_pay := row.total_tax }) acc
  dictModifyE row.period (fun ent =>
    { ent with recommendation :=
        if 0 < row.invoice_count ∨ 0 < row.total_tax then "File return for this period."
        else "No filing required (nil)." }) acc

/-- The final loop body of `filing_assistant`: payment recommendation,
rate breakdown attachment and summary line. -/
def finalizeEntry (rb : RateBreakdown) (pay_threshold : ℚ)
    (kv : String × FilingEntry) : String × FilingEntry :=
  let p := kv.1
  let info := kv.2
  let info :=
    if info.tax_to_pay ≠ 0 ∧ pay_threshold < info.tax_to_pay then
      { info with recommendation :=
          "File return and pay ₹" ++ fmt2 info.tax_to_pay ++ " for period " ++ p ++ "." }
    else info
  (p, { info with
    rate_breakdown := (alookup rb p).getD []
    summary_text :=
      "Period " ++ p ++ ": " ++ toString info.invoice_count ++ " invoices, taxable ₹" ++
      fmt2 info.total_taxable_value ++ ", tax ₹" ++ fmt2 info.total_tax ++ "." })

/-- `filing_assistant`: seed one entry per summary period (or a single
`unknown` entry for an empty summary), copy summary totals, scan the
invoices for anomalies, then finalize recommendations, attach the rate
breakdown and the summary line. -/
def filing_assistant (summary : List SummaryRow) (rb : RateBreakdown)
    (invs : List NormInv) (pay_threshold : ℚ) :
    Except String (List (String × FilingEntry)) := do
  let pp := seedEntries (if summary.isEmpty then ["unknown"] else summary.map (·.period))
  let pp ← summary.foldlM applyRow pp
  let pp ← invs.foldlM anomaliesStep pp
  .ok (pp.map (finalizeEntry rb pay_threshold))

/-! ### Helper lemmas -/

theorem not_ws_of_digit {c : Char} (h : c.isDigit = true) : c.isWhitespace = false := by
  by_cases h1 : c = ' '
  · subst h1; exact absurd h (by decide)
  by_cases h2 : c = '\t'
  · subst h2; exact absurd h (by decide)
  by_cases h3 : c = '\r'
  · subst h3; exact absurd h (by decide)
  by_cases h4 : c = '\n'
  · subst h4; exact absurd h (by decide)
  unfold Char.isWhitespace
  rw [decide_eq_false h1, decide_eq_false h2, decide_eq_false h3, decide_eq_false h4]
  rfl

theorem rstrip_cons {h : Char} (l : List Char) (hh : h.isWhitespace = false) :
    ((h :: l).reverse.dropWhile Char.isWhitespace).reverse
      = h :: (l.reverse.dropWhile Char.isWhitespace).reverse := by
  rw [List.reverse_cons, List.dropWhile_append]
  by_cases hcase : (l.reverse.dropWhile Char.isWhitespace).isEmpty
  · rw [if_pos hcase]
    simp only [List.dropWhile_cons, hh]
    simp only [List.isEmpty_iff] at hcase
    simp [hcase, List.dropWhile_nil]
  · rw [if_neg hcase]
    simp

theorem pyStrip_digit_lead {c1 c2 : Char} (t : List Char)
    (h1 : c1.isDigit = true) (h2 : c2.isDigit = true) :
    pyStrip (c1 :: c2 :: t)
      = c1 :: c2 :: (t.reverse.dropWhile Char.isWhitespace).reverse := by
  unfold pyStrip
  rw [List.dropWhile_cons_of_neg (by simp [not_ws_of_digit h1]),
    rstrip_cons _ (not_ws_of_digit h1), rstrip_cons _ (not_ws_of_digit h2)]

theorem vstr_truthy_cons (c : Char) (t : List Char) :
    Val.truthy (.vstr (String.mk (c :: t))) = true := by
  have h : (String.mk (c :: t)).isEmpty = false := by
    rw [Bool.eq_false_iff]
    intro h
    rw [String.isEmpty_iff] at h
    exact absurd (congrArg String.data h) (by simp)
  simp [Val.truthy, h]

theorem gst_code_digit_lead {c1 c2 : Char} (t : List Char)
    (h1 : c1.isDigit = true) (h2 : c2.isDigit = true) :
    gst_state_code_from_gstin (.vstr (String.mk (c1 :: c2 :: t)))
      = some (String.mk [c1, c2]) := by
  rw [gst_state_code_from_gstin, vstr_truthy_cons]
  have hs : strOfVal (.vstr (String.mk (c1 :: c2 :: t))) = String.mk (c1 :: c2 :: t) := rfl
  rw [Bool.not_true, if_neg (by simp), hs]
  show (if (2 ≤ (pyStrip (c1 :: c2 :: t)).length &&
      ((pyStrip (c1 :: c2 :: t)).take 2).all Char.isDigit) = true then
      some (String.mk ((pyStrip (c1 :: c2 :: t)).take 2))
    else firstTwoDigits (pyStrip (c1 :: c2 :: t))) = some (String.mk [c1, c2])
  rw [pyStrip_digit_lead t h1 h2]
  simp [h1, h2]

/-! ### Characterizations of the tax-breakup steps -/

theorem tax_from_items_eq (inv : NormInv) :
    tax_from_items inv = { inv with total_tax := (tax_from_items inv).total_tax } := by
  unfold tax_from_items
  split
  · split <;> rfl
  · rfl

theorem classify_step_eq (inv : NormInv) :
    classify_step inv =
      { inv with classification_inter_state := (classify_inter_state inv).1,
                 classification_reason := some (classify_inter_state inv).2 } := rfl

theorem split_step_eq (inv : NormInv) :
    split_step inv =
      { inv with igst := (split_step inv).igst, cgst := (split_step inv).cgst,
                 sgst := (split_step inv).sgst } := by
  unfold split_step splitWith
  split
  · split
    · split <;> rfl
    · rfl
  · rfl

theorem backfill_step_eq (inv : NormInv) :
    backfill_step inv =
      { inv with taxable_total := some (pyOrOQ inv.taxable_total 0),
                 total_tax := some (pyOrOQ inv.total_tax (dsum inv)) } := rfl

theorem tax_from_items_of_truthy {inv : NormInv} (h : truthyOQ inv.total_tax = true) :
    tax_from_items inv = inv := by
  unfold tax_from_items
  simp [h]

theorem classify_congr {a b : NormInv}
    (hs : a.supplier_gstin = b.supplier_gstin)
    (hc : a.customer_gstin = b.customer_gstin)
    (hp : a.place_of_supply = b.place_of_supply) :
    classify_inter_state a = classify_inter_state b := by
  simp only [classify_inter_state, hs, hc, hp]

/-! ### Field preservation of the tax-breakup steps -/

@[simp] theorem tfi_invoice_id (inv : NormInv) :
    (tax_from_items inv).invoice_id = inv.invoice_id := by
  rw [tax_from_items_eq]

@[simp] theorem tfi_raw_invoice_id (inv : NormInv) :
    (tax_from_items inv).raw_invoice_id = inv.raw_invoice_id := by
  rw [tax_from_items_eq]

@[simp] theorem tfi_invoice_date (inv : NormInv) :
    (tax_from_items inv).invoice_date = inv.invoice_date := by
  rw [tax_from_items_eq]

@[simp] theorem tfi_supplier_gstin (inv : NormInv) :
    (tax_from_items inv).supplier_gstin = inv.supplier_gstin := by
  rw [tax_from_items_eq]

@[simp] theorem tfi_customer_gstin (inv : NormInv) :
    (tax_from_items inv).customer_gstin = inv.customer_gstin := by
  rw [tax_from_items_eq]

@[simp] theorem tfi_place_of_supply (inv : NormInv) :
    (tax_from_items inv).place_of_supply = inv.place_of_supply := by
  rw [tax_from_items_eq]

@[simp] theorem tfi_items (inv : NormInv) :
    (tax_from_items inv).items = inv.items := by
  rw [tax_from_items_eq]

@[simp] theorem tfi_taxable_total (inv : NormInv) :
    (tax_from_items inv).taxable_total = inv.taxable_total := by
  rw [tax_from_items_eq]

@[simp] theorem tfi_cgst (inv : NormInv) :
    (tax_from_items inv).cgst = inv.cgst := by
  rw [tax_from_items_eq]

@[simp] theorem tfi_sgst (inv : NormInv) :
    (tax_from_items inv).sgst = inv.sgst := by
  rw [tax_from_items_eq]

@[simp] theorem tfi_igst (inv : NormInv) :
    (tax_from_items inv).igst = inv.igst := by
  rw [tax_from_items_eq]

@[simp] theorem tfi_grand_total (inv : NormInv) :
    (tax_from_items inv).grand_total = inv.grand_total := by
  rw [tax_from_items_eq]

@[simp] theorem tfi_classification_inter_state (inv : NormInv) :
    (tax_from_items inv).classification_inter_state = inv.classification_inter_state := by
  rw [tax_from_items_eq]

@[simp] theorem tfi_classification_reason (inv : NormInv) :
    (tax_from_items inv).classification_reason = inv.classification_reason := by
  rw [tax_from_items_eq]

@[simp] theorem tfi_raw_extracted (inv : NormInv) :
    (tax_from_items inv).raw_extracted = inv.raw_extracted := by
  rw [tax_from_items_eq]

@[simp] theorem cls_invoice_id (inv : NormInv) :
    (classify_step inv).invoice_id = inv.invoice_id := rfl

@[simp] theorem cls_raw_invoice_id (inv : NormInv) :
    (classify_step inv).raw_invoice_id = inv.raw_invoice_id := rfl

@[simp] theorem cls_invoice_date (inv : NormInv) :
    (classify_step inv).invoice_date = inv.invoice_date := rfl

@[simp] theorem cls_supplier_gstin (inv : NormInv) :
    (classify_step inv).supplier_gstin = inv.supplier_gstin := rfl

@[simp] theorem cls_customer_gstin (inv : NormInv) :
    (classify_step inv).customer_gstin = inv.customer_gstin := rfl

@[simp] theorem cls_place_of_supply (inv : NormInv) :
    (classify_step inv).place_of_supply = inv.place_of_supply := rfl

@[simp] theorem cls_items (inv : NormInv) :
    (classify_step inv).items = inv.items := rfl

@[simp] theorem cls_taxable_total (inv : NormInv) :
    (classify_step inv).taxable_total = inv.taxable_total := rfl

@[simp] theorem cls_cgst (inv : NormInv) :
    (classify_step inv).cgst = inv.cgst := rfl

@[simp] theorem cls_sgst (inv : NormInv) :
    (classify_step inv).sgst = inv.sgst := rfl

@[simp] theorem cls_igst (inv : NormInv) :
    (classify_step inv).igst = inv.igst := rfl

@[simp] theorem cls_total_tax (inv : NormInv) :
    (classify_step inv).total_tax = inv.total_tax := rfl

@[simp] theorem cls_grand_total (inv : NormInv) :
    (classify_step inv).grand_total = inv.grand_total := rfl

@[simp] theorem cls_raw_extracted (inv : NormInv) :
    (classify_step inv).raw_extracted = inv.raw_extracted := rfl

@[simp] theorem spl_invoice_id (inv : NormInv) :
    (split_step inv).invoice_id = inv.invoice_id := by
  rw [split_step_eq]

@[simp] theorem spl_raw_invoice_id (inv : NormInv) :
    (split_step inv).raw_invoice_id = inv.raw_invoice_id := by
  rw [split_step_eq]

@[simp] theorem spl_invoice_date (inv : NormInv) :
    (split_step inv).invoice_date = inv.invoice_date := by
  rw [split_step_eq]

@[simp] theorem spl_supplier_gstin (inv : NormInv) :
    (split_step inv).supplier_gstin = inv.supplier_gstin := by
  rw [split_step_eq]

@[simp] theorem spl_customer_gstin (inv : NormInv) :
    (split_step inv).customer_gstin = inv.customer_gstin := by
  rw [split_step_eq]

@[simp] theorem spl_place_of_supply (inv : NormInv) :
    (split_step inv).place_of_supply = inv.place_of_supply := by
  rw [split_step_eq]

@[simp] theorem spl_items (inv : NormInv) :
    (split_step inv).items = inv.items := by
  rw [split_step_eq]

@[simp] theorem spl_taxable_total (inv : NormInv) :
    (split_step inv).taxable_total = inv.taxable_total := by
  rw [split_step_eq]

@[simp] theorem spl_total_tax (inv : NormInv) :
    (split_step inv).total_tax = inv.total_tax := by
  rw [split_step_eq]

@[simp] theorem spl_grand_total (inv : NormInv) :
    (split_step inv).grand_total = inv.grand_total := by
  rw [split_step_eq]

@[simp] theorem spl_classification_inter_state (inv : NormInv) :
    (split_step inv).classification_inter_state = inv.classification_inter_state := by
  rw [split_step_eq]

@[simp] theorem spl_classification_reason (inv : NormInv) :
    (split_step inv).classification_reason = inv.classification_reason := by
  rw [split_step_eq]

@[simp] theorem spl_raw_extracted (inv : NormInv) :
    (split_step inv).raw_extracted = inv.raw_extracted := by
  rw [split_step_eq]

@[simp] theorem bfl_invoice_id (inv : NormInv) :
    (backfill_step inv).invoice_id = inv.invoice_id := rfl

@[simp] theorem bfl_raw_invoice_id (inv : NormInv) :
    (backfill_step inv).raw_invoice_id = inv.raw_invoice_id := rfl

@[simp] theorem bfl_invoice_date (inv : NormInv) :
    (backfill_step inv).invoice_date = inv.invoice_date := rfl

@[simp] theorem bfl_supplier_gstin (inv : NormInv) :
    (backfill_step inv).supplier_gstin = inv.supplier_gstin := rfl

@[simp] theorem bfl_customer_gstin (inv : NormInv) :
    (backfill_step inv).customer_gstin = inv.customer_gstin := rfl

@[simp] theorem bfl_place_of_supply (inv : NormInv) :
    (backfill_step inv).place_of_supply = inv.place_of_supply := rfl

@[simp] theorem bfl_items (inv : NormInv) :
    (backfill_step inv).items = inv.items := rfl

@[simp] theorem bfl_cgst (inv : NormInv) :
    (backfill_step inv).cgst = inv.cgst := rfl

@[simp] theorem bfl_sgst (inv : NormInv) :
    (backfill_step inv).sgst = inv.sgst := rfl

@[simp] theorem bfl_igst (inv : NormInv) :
    (backfill_step inv).igst = inv.igst := rfl

@[simp] theorem bfl_grand_total (inv : NormInv) :
    (backfill_step inv).grand_total = inv.grand_total := rfl

@[simp] theorem bfl_classification_inter_state (inv : NormInv) :
    (backfill_step inv).classification_inter_state = inv.classification_inter_state := rfl

@[simp] theorem bfl_classification_reason (inv : NormInv) :
    (backfill_step inv).classification_reason = inv.classification_reason := rfl

@[simp] theorem bfl_raw_extracted (inv : NormInv) :
    (backfill_step inv).raw_extracted = inv.raw_extracted := rfl

@[simp] theorem compute_invoice_id (inv : NormInv) :
    (compute_invoice_tax_breakup inv).invoice_id = inv.invoice_id := by
  simp [compute_invoice_tax_breakup]

@[simp] theorem compute_raw_invoice_id (inv : NormInv) :
    (compute_invoice_tax_breakup inv).raw_invoice_id = inv.raw_invoice_id := by
  simp [compute_invoice_tax_breakup]

@[simp] theorem compute_invoice_date (inv : NormInv) :
    (compute_invoice_tax_breakup inv).invoice_date = inv.invoice_date := by
  simp [compute_invoice_tax_breakup]

@[simp] theorem compute_supplier_gstin (inv : NormInv) :
    (compute_invoice_tax_breakup inv).supplier_gstin = inv.supplier_gstin := by
  simp [compute_invoice_tax_breakup]

@[simp] theorem compute_customer_gstin (inv : NormInv) :
    (compute_invoice_tax_breakup inv).customer_gstin = inv.customer_gstin := by
  simp [compute_invoice_tax_breakup]

@[simp] theorem compute_place_of_supply (inv : NormInv) :
    (compute_invoice_tax_breakup inv).place_of_supply = inv.place_of_supply := by
  simp [compute_invoice_tax_breakup]

@[simp] theorem compute_items (inv : NormInv) :
    (compute_invoice_tax_breakup inv).items = inv.items := by
  simp [compute_invoice_tax_breakup]

@[simp] theorem compute_grand_total (inv : NormInv) :
    (compute_invoice_tax_breakup inv).grand_total = inv.grand_total := by
  simp [compute_invoice_tax_breakup]

@[simp] theorem compute_raw_extracted (inv : NormInv) :
    (compute_invoice_tax_breakup inv).raw_extracted = inv.raw_extracted := by
  simp [compute_invoice_tax_breakup]

/-! ### C1 -/

/-- C1: for an invoice whose supplier GSTIN starts with the digits "24"
and whose customer GSTIN starts with "27", `classify_inter_state` returns
`(true, "24 vs 27")` and, with `total_tax = 100` and igst/cgst/sgst all
unset, `compute_invoice_tax_breakup` sets igst=100, cgst=0, sgst=0; when
both GSTINs start with "24" it returns `(false, "24 vs 24")` and sets
cgst=50, sgst=50, igst=0. -/
theorem c1_inter_and_intra_breakup
    (inv₁ inv₂ : NormInv) (t₁ t₂ u₁ u₂ : List Char)
    (h₁s : inv₁.supplier_gstin = .vstr (String.mk ('2' :: '4' :: t₁)))
    (h₁c : inv₁.customer_gstin = .vstr (String.mk ('2' :: '7' :: t₂)))
    (h₁t : inv₁.total_tax = some 100)
    (h₁i : inv₁.igst = none) (h₁cg : inv₁.cgst = none) (h₁sg : inv₁.sgst = none)
    (h₂s : inv₂.supplier_gstin = .vstr (String.mk ('2' :: '4' :: u₁)))
    (h₂c : inv₂.customer_gstin = .vstr (String.mk ('2' :: '4' :: u₂)))
    (h₂t : inv₂.total_tax = some 100)
    (h₂i : inv₂.igst = none) (h₂cg : inv₂.cgst = none) (h₂sg : inv₂.sgst = none) :
    classify_inter_state inv₁ = (some true, "24 vs 27") ∧
    (compute_invoice_tax_breakup inv₁).igst = some 100 ∧
    (compute_invoice_tax_breakup inv₁).cgst = some 0 ∧
    (compute_invoice_tax_breakup inv₁).sgst = some 0 ∧
    classify_inter_state inv₂ = (some false, "24 vs 24") ∧
    (compute_invoice_tax_breakup inv₂).cgst = some 50 ∧
    (compute_invoice_tax_breakup inv₂).sgst = some 50 ∧
    (compute_invoice_tax_breakup inv₂).igst = some 0 := by
  have hsup₁ : gst_state_code_from_gstin inv₁.supplier_gstin = some "24" := by
    rw [h₁s, @gst_code_digit_lead '2' '4' t₁ (by decide) (by decide)]
  have hcus₁ : gst_state_code_from_gstin inv₁.customer_gstin = some "27" := by
    rw [h₁c, @gst_code_digit_lead '2' '7' t₂ (by decide) (by decide)]
  have hsup₂ : gst_state_code_from_gstin inv₂.supplier_gstin = some "24" := by
    rw [h₂s, @gst_code_digit_lead '2' '4' u₁ (by decide) (by decide)]
  have hcus₂ : gst_state_code_from_gstin inv₂.customer_gstin = some "24" := by
    rw [h₂c, @gst_code_digit_lead '2' '4' u₂ (by decide) (by decide)]
  have hcl₁ : classify_inter_state inv₁ = (some true, "24 vs 27") := by
    simp only [classify_inter_state, hsup₁, hcus₁]
    decide
  have hcl₂ : classify_inter_state inv₂ = (some false, "24 vs 24") := by
    simp only [classify_inter_state, hsup₂, hcus₂]
    decide
  have hti₁ : tax_from_items inv₁ = inv₁ := by
    rw [tax_from_items, h₁t]
    norm_num [truthyOQ]
  have hti₂ : tax_from_items inv₂ = inv₂ := by
    rw [tax_from_items, h₂t]
    norm_num [truthyOQ]
  have hcs₁ : classify_step inv₁ =
      { inv₁ with classification_inter_state := some true,
                  classification_reason := some "24 vs 27" } := by
    simp only [classify_step, hcl₁]
  have hcs₂ : classify_step inv₂ =
      { inv₂ with classification_inter_state := some false,
                  classification_reason := some "24 vs 24" } := by
    simp only [classify_step, hcl₂]
  refine ⟨hcl₁, ?_, ?_, ?_, hcl₂, ?_, ?_, ?_⟩ <;>
    rw [compute_invoice_tax_breakup] <;>
    simp only [hti₁, hti₂, hcs₁, hcs₂] <;>
    simp only [split_step, splitWith, backfill_step, dsum, h₁t, h₁i, h₁cg, h₁sg, h₂t, h₂i,
      h₂cg, h₂sg, pyOrOQ] <;>
    norm_num [pyRound2, roundHalfEven]

/-- Concrete instantiation of `c1_inter_and_intra_breakup` at the two
scenario GSTIN pairs from the spec. -/
def c1inv (sup cus : String) : NormInv :=
  { invoice_id := .vnull, raw_invoice_id := .vnull, invoice_date := none,
    supplier_gstin := .vstr sup, customer_gstin := .vstr cus,
    place_of_supply := .vnull, items := [], taxable_total := none,
    cgst := none, sgst := none, igst := none, total_tax := some 100, grand_total := none }

theorem c1_witness :
    classify_inter_state (c1inv "24ABCDE1234F1Z5" "27XXXXX0000X1Z1") = (some true, "24 vs 27") ∧
    (compute_invoice_tax_breakup (c1inv "24ABCDE1234F1Z5" "27XXXXX0000X1Z1")).igst = some 100 ∧
    (compute_invoice_tax_breakup (c1inv "24ABCDE1234F1Z5" "27XXXXX0000X1Z1")).cgst = some 0 ∧
    (compute_invoice_tax_breakup (c1inv "24ABCDE1234F1Z5" "27XXXXX0000X1Z1")).sgst = some 0 ∧
    classify_inter_state (c1inv "24ABCDE1234F1Z5" "24ABCDE1234F1Z5") = (some false, "24 vs 24") ∧
    (compute_invoice_tax_breakup (c1inv "24ABCDE1234F1Z5" "24ABCDE1234F1Z5")).cgst = some 50 ∧
    (compute_invoice_tax_breakup (c1inv "24ABCDE1234F1Z5" "24ABCDE1234F1Z5")).sgst = some 50 ∧
    (compute_invoice_tax_breakup (c1inv "24ABCDE1234F1Z5" "24ABCDE1234F1Z5")).igst = some 0 :=
  c1_inter_and_intra_breakup
    (c1inv "24ABCDE1234F1Z5" "27XXXXX0000X1Z1")
    (c1inv "24ABCDE1234F1Z5" "24ABCDE1234F1Z5")
    "ABCDE1234F1Z5".data "XXXXX0000X1Z1".data
    "ABCDE1234F1Z5".data "ABCDE1234F1Z5".data
    rfl rfl rfl rfl rfl rfl rfl rfl rfl rfl rfl rfl


/-! ### C4 -/

/-- Invoice with `igst = 0` (but cgst/sgst already populated unequally):
the split step requires all three of igst/cgst/sgst to be unset, so it
does not run and no even split happens. -/
def c4inv : NormInv :=
  { invoice_id := .vnull, raw_invoice_id := .vnull, invoice_date := none,
    supplier_gstin := .vstr "24AAAAA0000A1Z5", customer_gstin := .vstr "24BBBBB1111B2Z6",
    place_of_supply := .vnull, items := [],
    taxable_total := none, cgst := some 30, sgst := some 10, igst := some 0,
    total_tax := some 40, grand_total := none }

/-- C4 counterexample: an invoice whose igst equals 0 for which
`compute_invoice_tax_breakup` does not split `total_tax` evenly —
cgst and sgst keep their unequal values 30 and 10. -/
theorem c4_counterexample :
    c4inv.igst = some 0 ∧
    (compute_invoice_tax_breakup c4inv).cgst = some 30 ∧
    (compute_invoice_tax_breakup c4inv).sgst = some 10 ∧
    (compute_invoice_tax_breakup c4inv).cgst ≠ (compute_invoice_tax_breakup c4inv).sgst := by
  refine ⟨rfl, ?_, ?_, ?_⟩ <;> decide

/-- C4 (amended): for every NormalizedInvoice whose igst, cgst and sgst
are all unset, `compute_invoice_tax_breakup` returns cgst = sgst; when
moreover the invoice classifies intra-state and carries a nonzero
`total_tax = t`, both equal `round(t/2, 2)`. -/
theorem c4_amended (inv : NormInv)
    (hi : inv.igst = none) (hc : inv.cgst = none) (hs : inv.sgst = none) :
    (compute_invoice_tax_breakup inv).cgst = (compute_invoice_tax_breakup inv).sgst ∧
    (∀ t : ℚ, t ≠ 0 → inv.total_tax = some t →
      (classify_inter_state inv).1 = some false →
      (compute_invoice_tax_breakup inv).cgst = some (pyRound2 (t / 2)) ∧
      (compute_invoice_tax_breakup inv).sgst = some (pyRound2 (t / 2))) := by
  constructor
  · simp only [compute_invoice_tax_breakup, bfl_cgst, bfl_sgst]
    by_cases htt : pyOrOQ (tax_from_items inv).total_tax 0 = 0
    · simp [split_step, splitWith, htt, hc, hs]
    · rcases hcl : (classify_step (tax_from_items inv)).classification_inter_state with _ | b
      · simp [split_step, splitWith, htt, hi, hc, hs, hcl]
      · cases b <;> simp [split_step, splitWith, htt, hi, hc, hs, hcl]
  · intro t ht htot hclf
    have htr : truthyOQ inv.total_tax = true := by simp [truthyOQ, htot, ht]
    have h1 : tax_from_items inv = inv := tax_from_items_of_truthy htr
    have hcl : (classify_step (tax_from_items inv)).classification_inter_state = some false := by
      rw [h1]; exact hclf
    have htt2 : pyOrOQ (tax_from_items inv).total_tax 0 = t := by
      rw [h1, htot]
      simp [pyOrOQ, ht]
    simp only [compute_invoice_tax_breakup, bfl_cgst, bfl_sgst, split_step]
    simp [splitWith, htt2, ht, hi, hc, hs, hcl]

/-- An intra-state invoice with total_tax 100 and unset igst/cgst/sgst. -/
def c4w : NormInv :=
  { invoice_id := .vnull, raw_invoice_id := .vnull, invoice_date := none,
    supplier_gstin := .vstr "24AAAAA0000A1Z5", customer_gstin := .vstr "24BBBBB1111B2Z6",
    place_of_supply := .vnull, items := [],
    taxable_total := none, cgst := none, sgst := none, igst := none,
    total_tax := some 100, grand_total := none }

theorem c4_amended_witness :
    (compute_invoice_tax_breakup c4w).cgst = (compute_invoice_tax_breakup c4w).sgst ∧
    (compute_invoice_tax_breakup c4w).cgst = some (pyRound2 (100 / 2)) :=
  ⟨(c4_amended c4w rfl rfl rfl).1,
   ((c4_amended c4w rfl rfl rfl).2 100 (by norm_num) rfl (by decide)).1⟩


/-! ### C7 -/

theorem pyOrOQ_falsy {o : Option ℚ} (h : truthyOQ o = false) (d : ℚ) : pyOrOQ o d = d := by
  cases o with
  | none => rfl
  | some q =>
      simp only [truthyOQ, decide_eq_false_iff_not, not_not] at h
      simp [pyOrOQ, h]

/-- Invoice with no items, no totals and no GSTINs: the split step does
not run (total_tax is falsy), so igst/cgst/sgst are never backfilled. -/
def c7inv : NormInv :=
  { invoice_id := .vnull, raw_invoice_id := .vnull, invoice_date := none,
    supplier_gstin := .vnull, customer_gstin := .vnull, place_of_supply := .vnull,
    items := [], taxable_total := none, cgst := none, sgst := none, igst := none,
    total_tax := none, grand_total := none }

/-- C7 counterexample: after `compute_invoice_tax_breakup`, igst, cgst
and sgst can still be null — only `taxable_total` and `total_tax` are
backfilled to 0. -/
theorem c7_counterexample :
    (compute_invoice_tax_breakup c7inv).igst = none ∧
    (compute_invoice_tax_breakup c7inv).cgst = none ∧
    (compute_invoice_tax_breakup c7inv).sgst = none ∧
    (compute_invoice_tax_breakup c7inv).taxable_total = some 0 ∧
    (compute_invoice_tax_breakup c7inv).total_tax = some 0 := by
  refine ⟨by decide, by decide, by decide, by decide, ?_⟩
  have h1 : (split_step (classify_step (tax_from_items c7inv))).total_tax = none := by decide
  have h2 : (split_step (classify_step (tax_from_items c7inv))).igst = none := by decide
  have h3 : (split_step (classify_step (tax_from_items c7inv))).cgst = none := by decide
  have h4 : (split_step (classify_step (tax_from_items c7inv))).sgst = none := by decide
  show some (pyOrOQ (split_step (classify_step (tax_from_items c7inv))).total_tax
      (dsum (split_step (classify_step (tax_from_items c7inv))))) = some 0
  rw [h1]
  simp only [dsum, h2, h3, h4, pyOrOQ]
  norm_num

/-- C7 (amended): after `compute_invoice_tax_breakup`, `taxable_total`
and `total_tax` are never null (each backfilled to 0 when missing), and
when `total_tax` was still falsy at the final backfill it is recomputed
as `(igst or 0) + (cgst or 0) + (sgst or 0)`; igst, cgst and sgst
themselves are not backfilled and may remain null. -/
theorem c7_amended (inv : NormInv) :
    (compute_invoice_tax_breakup inv).taxable_total.isSome = true ∧
    (compute_invoice_tax_breakup inv).total_tax.isSome = true ∧
    (truthyOQ (split_step (classify_step (tax_from_items inv))).total_tax = false →
      (compute_invoice_tax_breakup inv).total_tax =
        some (pyOrOQ (compute_invoice_tax_breakup inv).igst 0 +
              pyOrOQ (compute_invoice_tax_breakup inv).cgst 0 +
              pyOrOQ (compute_invoice_tax_breakup inv).sgst 0)) := by
  refine ⟨rfl, rfl, fun h => ?_⟩
  show some (pyOrOQ (split_step (classify_step (tax_from_items inv))).total_tax
      (dsum (split_step (classify_step (tax_from_items inv))))) = _
  rw [pyOrOQ_falsy h]
  simp only [compute_invoice_tax_breakup, bfl_igst, bfl_cgst, bfl_sgst, dsum]

theorem c7_amended_witness :
    (compute_invoice_tax_breakup c7inv).taxable_total.isSome = true ∧
    (compute_invoice_tax_breakup c7inv).total_tax =
      some (pyOrOQ (compute_invoice_tax_breakup c7inv).igst 0 +
            pyOrOQ (compute_invoice_tax_breakup c7inv).cgst 0 +
            pyOrOQ (compute_invoice_tax_breakup c7inv).sgst 0) :=
  ⟨(c7_amended c7inv).1, (c7_amended c7inv).2.2 (by decide)⟩


/-! ### Idempotence machinery for `compute_invoice_tax_breakup` -/

theorem pyOrOQ_some_zero (q : ℚ) : pyOrOQ (some q) 0 = q := by
  by_cases h : q = 0 <;> simp [pyOrOQ, h]

theorem pyOrOQ_eq_zero {o : Option ℚ} {d : ℚ} (h : pyOrOQ o d = 0) :
    truthyOQ o = false ∧ d = 0 := by
  cases o with
  | none => exact ⟨rfl, h⟩
  | some q =>
      by_cases hq : q = 0
      · subst hq
        refine ⟨by simp [truthyOQ], ?_⟩
        simpa [pyOrOQ] using h
      · exfalso
        rw [pyOrOQ, if_neg hq] at h
        exact hq h

theorem truthyOQ_some_iff {q : ℚ} : truthyOQ (some q) = false ↔ q = 0 := by
  simp [truthyOQ]

theorem dsum_none {k : NormInv} (h1 : k.igst = none) (h2 : k.cgst = none)
    (h3 : k.sgst = none) : dsum k = 0 := by
  simp [dsum, h1, h2, h3, pyOrOQ]

theorem splitWith_all_none {tt : ℚ} {k : NormInv}
    (h : (splitWith tt k).igst = none ∧ (splitWith tt k).cgst = none ∧
         (splitWith tt k).sgst = none) :
    splitWith tt k = k ∧ tt = 0 ∧ k.igst = none ∧ k.cgst = none ∧ k.sgst = none := by
  unfold splitWith at h ⊢
  split at h
  · rename_i htt
    split at h
    · rename_i hall
      rcases hm : k.classification_inter_state with _ | b
      · rw [hm] at h
        simp at h
      · rw [hm] at h
        cases b <;> simp at h
    · rename_i hall
      exact absurd h hall
  · rename_i htt
    have h0 : tt = 0 := by
      by_contra hne
      exact htt hne
    rw [if_neg htt]
    exact ⟨rfl, h0, h.1, h.2.1, h.2.2⟩


theorem compute_total_tax_def (n : NormInv) :
    (compute_invoice_tax_breakup n).total_tax =
      some (pyOrOQ (split_step (classify_step (tax_from_items n))).total_tax
        (dsum (split_step (classify_step (tax_from_items n))))) := rfl

theorem compute_total_zero {n : NormInv}
    (h : (compute_invoice_tax_breakup n).total_tax = some 0) :
    truthyOQ (split_step (classify_step (tax_from_items n))).total_tax = false ∧
    dsum (split_step (classify_step (tax_from_items n))) = 0 := by
  rw [compute_total_tax_def] at h
  exact pyOrOQ_eq_zero (Option.some.inj h)

theorem tfi_of_compute (n : NormInv) :
    tax_from_items (compute_invoice_tax_breakup n) = compute_invoice_tax_breakup n := by
  by_cases ht : truthyOQ (compute_invoice_tax_breakup n).total_tax = true
  · exact tax_from_items_of_truthy ht
  have hfalse : truthyOQ (compute_invoice_tax_breakup n).total_tax = false := by
    simpa using ht
  obtain ⟨T, hT⟩ : ∃ T, (compute_invoice_tax_breakup n).total_tax = some T := ⟨_, rfl⟩
  have hT0 : T = 0 := truthyOQ_some_iff.mp (by rw [hT] at hfalse; exact hfalse)
  subst hT0
  have hzero := compute_total_zero hT
  unfold tax_from_items
  rw [hT]
  by_cases hit : (compute_invoice_tax_breakup n).items.isEmpty
  · rw [if_neg (by rw [hit]; simp)]
  · have hitne : (compute_invoice_tax_breakup n).items.isEmpty = false := by simpa using hit
    rw [if_pos (by rw [hitne, truthyOQ_some_iff.mpr rfl]; rfl)]
    by_cases hpos : 0 < items_tax_total (compute_invoice_tax_breakup n).items
    · rw [if_pos hpos]
      have hitems : (compute_invoice_tax_breakup n).items = n.items := compute_items n
      have hnit : n.items.isEmpty = false := by
        rw [← hitems]
        exact hitne
      have hstt : truthyOQ (tax_from_items n).total_tax = false := by
        have h1 := hzero.1
        rwa [spl_total_tax, cls_total_tax] at h1
      have hntt : truthyOQ n.total_tax = false := by
        by_contra hc
        have hc' : truthyOQ n.total_tax = true := by simpa using hc
        rw [tax_from_items_of_truthy hc'] at hstt
        simp [hc'] at hstt
      have hx : (tax_from_items n).total_tax = some (pyRound2 (items_tax_total n.items)) := by
        unfold tax_from_items
        rw [if_pos (by rw [hnit, hntt]; rfl)]
        rw [if_pos (by rwa [hitems] at hpos)]
      have hr0 : pyRound2 (items_tax_total (compute_invoice_tax_breakup n).items) = 0 := by
        rw [hitems]
        rw [hx] at hstt
        exact truthyOQ_some_iff.mp hstt
      rw [hr0, ← hT]
    · rw [if_neg hpos]

theorem compute_classification (n : NormInv) :
    (compute_invoice_tax_breakup n).classification_inter_state = (classify_inter_state n).1 ∧
    (compute_invoice_tax_breakup n).classification_reason = some (classify_inter_state n).2 := by
  have hcong : classify_inter_state (tax_from_items n) = classify_inter_state n :=
    classify_congr (tfi_supplier_gstin n) (tfi_customer_gstin n) (tfi_place_of_supply n)
  constructor
  · show (split_step (classify_step (tax_from_items n))).classification_inter_state = _
    rw [spl_classification_inter_state]
    show (classify_inter_state (tax_from_items n)).1 = _
    rw [hcong]
  · show (split_step (classify_step (tax_from_items n))).classification_reason = _
    rw [spl_classification_reason]
    show some (classify_inter_state (tax_from_items n)).2 = _
    rw [hcong]

theorem cls_of_compute (n : NormInv) :
    classify_step (compute_invoice_tax_breakup n) = compute_invoice_tax_breakup n := by
  have hcr : classify_inter_state (compute_invoice_tax_breakup n) = classify_inter_state n :=
    classify_congr (compute_supplier_gstin n) (compute_customer_gstin n)
      (compute_place_of_supply n)
  rw [classify_step_eq, hcr, ← (compute_classification n).1, ← (compute_classification n).2]

theorem spl_of_compute (n : NormInv) :
    split_step (compute_invoice_tax_breakup n) = compute_invoice_tax_breakup n := by
  by_cases hT : pyOrOQ (compute_invoice_tax_breakup n).total_tax 0 = 0
  · unfold split_step splitWith
    rw [if_neg (by simp [hT])]
  · have hall : ¬((compute_invoice_tax_breakup n).igst = none ∧
        (compute_invoice_tax_breakup n).cgst = none ∧
        (compute_invoice_tax_breakup n).sgst = none) := by
      intro hall
      apply hT
      have hs : (split_step (classify_step (tax_from_items n))).igst = none ∧
          (split_step (classify_step (tax_from_items n))).cgst = none ∧
          (split_step (classify_step (tax_from_items n))).sgst = none := hall
      obtain ⟨hsk, htt0, hk1, hk2, hk3⟩ := splitWith_all_none hs
      have hktt : truthyOQ (classify_step (tax_from_items n)).total_tax = false :=
        (pyOrOQ_eq_zero htt0).1
      have hrt : (compute_invoice_tax_breakup n).total_tax =
          some (dsum (split_step (classify_step (tax_from_items n)))) := by
        rw [compute_total_tax_def]
        have : truthyOQ (split_step (classify_step (tax_from_items n))).total_tax = false := by
          rw [spl_total_tax]
          exact hktt
        rw [pyOrOQ_falsy this]
      have hds : dsum (split_step (classify_step (tax_from_items n))) = 0 := by
        have hsk' : split_step (classify_step (tax_from_items n)) =
            classify_step (tax_from_items n) := hsk
        rw [hsk']
        exact dsum_none hk1 hk2 hk3
      rw [hrt, hds, pyOrOQ_some_zero]
    unfold split_step splitWith
    rw [if_pos hT, if_neg hall]

theorem bfl_of_compute (n : NormInv) :
    backfill_step (compute_invoice_tax_breakup n) = compute_invoice_tax_breakup n := by
  have h1 : some (pyOrOQ (compute_invoice_tax_breakup n).taxable_total 0) =
      (compute_invoice_tax_breakup n).taxable_total := by
    show some (pyOrOQ (some (pyOrOQ (split_step (classify_step (tax_from_items n))).taxable_total
      0)) 0) = _
    rw [pyOrOQ_some_zero]
    rfl
  have h2 : some (pyOrOQ (compute_invoice_tax_breakup n).total_tax
      (dsum (compute_invoice_tax_breakup n))) = (compute_invoice_tax_breakup n).total_tax := by
    obtain ⟨T, hT⟩ : ∃ T, (compute_invoice_tax_breakup n).total_tax = some T := ⟨_, rfl⟩
    rw [hT]
    by_cases hz : T = 0
    · subst hz
      have hzero := compute_total_zero hT
      have hdr : dsum (compute_invoice_tax_breakup n) =
          dsum (split_step (classify_step (tax_from_items n))) := rfl
      rw [pyOrOQ, if_pos rfl, hdr, hzero.2]
    · rw [pyOrOQ, if_neg hz]
  rw [backfill_step_eq, h1, h2]

theorem compute_idem (n : NormInv) :
    compute_invoice_tax_breakup (compute_invoice_tax_breakup n) =
      compute_invoice_tax_breakup n := by
  show backfill_step (split_step (classify_step (tax_from_items
    (compute_invoice_tax_breakup n)))) = _
  rw [tfi_of_compute, cls_of_compute, spl_of_compute, bfl_of_compute]


/-! ### C6 -/

theorem split_preserves_igst {inv : NormInv} {q : ℚ} (h : inv.igst = some q) :
    (split_step inv).igst = some q := by
  unfold split_step splitWith
  split
  · split
    · rename_i hall
      exact absurd hall.1 (by simp [h])
    · exact h
  · exact h

theorem split_preserves_cgst {inv : NormInv} {q : ℚ} (h : inv.cgst = some q) :
    (split_step inv).cgst = some q := by
  unfold split_step splitWith
  split
  · split
    · rename_i hall
      exact absurd hall.2.1 (by simp [h])
    · exact h
  · exact h

theorem split_preserves_sgst {inv : NormInv} {q : ℚ} (h : inv.sgst = some q) :
    (split_step inv).sgst = some q := by
  unfold split_step splitWith
  split
  · split
    · rename_i hall
      exact absurd hall.2.2 (by simp [h])
    · exact h
  · exact h

theorem compute_preserves_igst {inv : NormInv} {q : ℚ} (h : inv.igst = some q) :
    (compute_invoice_tax_breakup inv).igst = some q := by
  show (split_step (classify_step (tax_from_items inv))).igst = some q
  apply split_preserves_igst
  simpa using h

theorem compute_preserves_cgst {inv : NormInv} {q : ℚ} (h : inv.cgst = some q) :
    (compute_invoice_tax_breakup inv).cgst = some q := by
  show (split_step (classify_step (tax_from_items inv))).cgst = some q
  apply split_preserves_cgst
  simpa using h

theorem compute_preserves_sgst {inv : NormInv} {q : ℚ} (h : inv.sgst = some q) :
    (compute_invoice_tax_breakup inv).sgst = some q := by
  show (split_step (classify_step (tax_from_items inv))).sgst = some q
  apply split_preserves_sgst
  simpa using h

theorem compute_preserves_taxable {inv : NormInv} {q : ℚ} (h : inv.taxable_total = some q) :
    (compute_invoice_tax_breakup inv).taxable_total = some q := by
  show some (pyOrOQ (split_step (classify_step (tax_from_items inv))).taxable_total 0) = some q
  have hs : (split_step (classify_step (tax_from_items inv))).taxable_total = some q := by
    simpa using h
  rw [hs, pyOrOQ_some_zero]

theorem compute_preserves_total_tax {inv : NormInv} {q : ℚ} (hq : q ≠ 0)
    (h : inv.total_tax = some q) :
    (compute_invoice_tax_breakup inv).total_tax = some q := by
  have h1 : tax_from_items inv = inv :=
    tax_from_items_of_truthy (by simp [truthyOQ, h, hq])
  rw [compute_total_tax_def, h1]
  have hs : (split_step (classify_step inv)).total_tax = some q := by
    rw [spl_total_tax, cls_total_tax]
    exact h
  rw [hs, pyOrOQ, if_neg hq]

/-- Raw dict whose normalization has `total_tax` populated with 0 and
`igst` populated with 10. -/
def c6raw : RawDict := [("Total Tax", .vstr "0"), ("IGST Amount", .vstr "10")]

/-- The normalization of `c6raw`. -/
def c6n : NormInv :=
  { invoice_id := .vnull, raw_invoice_id := .vnull, invoice_date := none,
    supplier_gstin := .vnull, customer_gstin := .vnull, place_of_supply := .vnull,
    items := [], taxable_total := none, cgst := none, sgst := none, igst := some 10,
    total_tax := some 0, grand_total := none, raw_extracted := c6raw }

/-- C6 counterexample: a `normalize_invoice` product whose populated
`total_tax` (value 0) is changed by `compute_invoice_tax_breakup` to
`igst + cgst + sgst = 10`, so a populated field is overwritten. -/
theorem c6_counterexample :
    normalize_invoice c6raw = .ok c6n ∧
    c6n.total_tax = some 0 ∧
    (compute_invoice_tax_breakup c6n).total_tax = some 10 := by
  refine ⟨rfl, rfl, ?_⟩
  rw [compute_total_tax_def]
  have h1 : (split_step (classify_step (tax_from_items c6n))).total_tax = some 0 := by decide
  have h2 : (split_step (classify_step (tax_from_items c6n))).igst = some 10 := by decide
  have h3 : (split_step (classify_step (tax_from_items c6n))).cgst = none := by decide
  have h4 : (split_step (classify_step (tax_from_items c6n))).sgst = none := by decide
  rw [h1, pyOrOQ_falsy (truthyOQ_some_iff.mpr rfl)]
  simp only [dsum, h2, h3, h4, pyOrOQ]
  norm_num

/-- C6 (amended): on every normalized invoice, `compute_invoice_tax_breakup`
is idempotent (applying it twice equals applying it once), and every
already-populated field keeps its value except a `total_tax` populated
with the falsy value 0, which may be recomputed as igst+cgst+sgst (as the
counterexample shows): populated igst/cgst/sgst/taxable_total are always
preserved, and a populated nonzero total_tax is preserved. -/
theorem c6_amended (e : RawDict) (inv : NormInv)
    (hnorm : normalize_invoice e = .ok inv) :
    compute_invoice_tax_breakup (compute_invoice_tax_breakup inv) =
      compute_invoice_tax_breakup inv ∧
    (∀ q, inv.igst = some q → (compute_invoice_tax_breakup inv).igst = some q) ∧
    (∀ q, inv.cgst = some q → (compute_invoice_tax_breakup inv).cgst = some q) ∧
    (∀ q, inv.sgst = some q → (compute_invoice_tax_breakup inv).sgst = some q) ∧
    (∀ q, inv.taxable_total = some q →
      (compute_invoice_tax_breakup inv).taxable_total = some q) ∧
    (∀ q, q ≠ 0 → inv.total_tax = some q →
      (compute_invoice_tax_breakup inv).total_tax = some q) :=
  ⟨compute_idem inv,
   fun _ h => compute_preserves_igst h,
   fun _ h => compute_preserves_cgst h,
   fun _ h => compute_preserves_sgst h,
   fun _ h => compute_preserves_taxable h,
   fun _ hq h => compute_preserves_total_tax hq h⟩

/-- Raw dict exercising every preserved field of the amended C6. -/
def c6wraw : RawDict :=
  [("IGST Amount", .vstr "5"), ("CGST Amount", .vstr "6"), ("SGST Amount", .vstr "7"),
   ("Taxable Amount", .vstr "8"), ("Total Tax", .vstr "9")]

/-- The normalization of `c6wraw`. -/
def c6wn : NormInv :=
  { invoice_id := .vnull, raw_invoice_id := .vnull, invoice_date := none,
    supplier_gstin := .vnull, customer_gstin := .vnull, place_of_supply := .vnull,
    items := [], taxable_total := some 8, cgst := some 6, sgst := some 7, igst := some 5,
    total_tax := some 9, grand_total := none, raw_extracted := c6wraw }

theorem c6_amended_witness :
    compute_invoice_tax_breakup (compute_invoice_tax_breakup c6wn) =
      compute_invoice_tax_breakup c6wn ∧
    (compute_invoice_tax_breakup c6wn).igst = some 5 ∧
    (compute_invoice_tax_breakup c6wn).cgst = some 6 ∧
    (compute_invoice_tax_breakup c6wn).sgst = some 7 ∧
    (compute_invoice_tax_breakup c6wn).taxable_total = some 8 ∧
    (compute_invoice_tax_breakup c6wn).total_tax = some 9 :=
  ⟨(c6_amended c6wraw c6wn rfl).1,
   (c6_amended c6wraw c6wn rfl).2.1 5 rfl,
   (c6_amended c6wraw c6wn rfl).2.2.1 6 rfl,
   (c6_amended c6wraw c6wn rfl).2.2.2.1 7 rfl,
   (c6_amended c6wraw c6wn rfl).2.2.2.2.1 8 rfl,
   (c6_amended c6wraw c6wn rfl).2.2.2.2.2 9 (by norm_num) rfl⟩


/-! ### C9 -/

theorem normalize_raw_extracted {e : RawDict} {out : NormInv}
    (h : normalize_invoice e = .ok out) : out.raw_extracted = e := by
  unfold normalize_invoice at h
  split at h
  · exact absurd h (by simp)
  · split at h
    · exact absurd h (by simp)
    · rw [← Option.some.inj (congrArg Except.toOption h)]

/-- C9: neither function mutates its argument.  In this pure embedding,
`normalize_invoice` only reads the raw mapping and stores it unchanged as
`raw_extracted` (a reference, not a copy), and
`compute_invoice_tax_breakup` operates on a copy (`inv = dict(inv)` in
the source): it returns an updated record in which every field other
than the classification and tax/total fields is carried over unchanged,
including the `raw_extracted` reference. -/
theorem c9_no_mutation :
    (∀ (e : RawDict) (out : NormInv), normalize_invoice e = .ok out →
      out.raw_extracted = e) ∧
    (∀ inv : NormInv,
      (compute_invoice_tax_breakup inv).invoice_id = inv.invoice_id ∧
      (compute_invoice_tax_breakup inv).raw_invoice_id = inv.raw_invoice_id ∧
      (compute_invoice_tax_breakup inv).invoice_date = inv.invoice_date ∧
      (compute_invoice_tax_breakup inv).supplier_gstin = inv.supplier_gstin ∧
      (compute_invoice_tax_breakup inv).customer_gstin = inv.customer_gstin ∧
      (compute_invoice_tax_breakup inv).place_of_supply = inv.place_of_supply ∧
      (compute_invoice_tax_breakup inv).items = inv.items ∧
      (compute_invoice_tax_breakup inv).grand_total = inv.grand_total ∧
      (compute_invoice_tax_breakup inv).raw_extracted = inv.raw_extracted) :=
  ⟨fun _ _ h => normalize_raw_extracted h,
   fun inv =>
    ⟨compute_invoice_id inv, compute_raw_invoice_id inv, compute_invoice_date inv,
     compute_supplier_gstin inv, compute_customer_gstin inv, compute_place_of_supply inv,
     compute_items inv, compute_grand_total inv, compute_raw_extracted inv⟩⟩

/-- A small raw invoice used to instantiate C9. -/
def c9raw : RawDict := [("Invoice Number", .vstr "INV-9"), ("Total Tax", .vstr "18")]

/-- The normalization of `c9raw`. -/
def c9n : NormInv :=
  { invoice_id := .vstr "INV-9", raw_invoice_id := .vstr "INV-9", invoice_date := none,
    supplier_gstin := .vnull, customer_gstin := .vnull, place_of_supply := .vnull,
    items := [], taxable_total := none, cgst := none, sgst := none, igst := none,
    total_tax := some 18, grand_total := none, raw_extracted := c9raw }

theorem c9_witness :
    c9n.raw_extracted = c9raw ∧
    (compute_invoice_tax_breakup c9n).raw_extracted = c9n.raw_extracted :=
  ⟨c9_no_mutation.1 c9raw c9n rfl, (c9_no_mutation.2 c9n).2.2.2.2.2.2.2.2⟩


/-! ### C3 -/

/-- Every entry of the `Items` list (after the `or []` default) is a dict. -/
def itemsAllDicts (e : RawDict) : Bool :=
  match orV (dget e "Items") (.vlist []) with
  | .vlist l => l.all (fun v =>
      match v with
      | .vdict _ => true
      | _ => false)
  | _ => true

/-- The `raw_text` field (defaulting to `""`) is a string. -/
def rawTextOk (e : RawDict) : Bool :=
  match dgetD e "raw_text" (.vstr "") with
  | .vstr _ => true
  | _ => false

theorem normItemsList_ok (l : List Val)
    (h : l.all (fun v =>
      match v with
      | Val.vdict _ => true
      | _ => false) = true) :
    ∃ its, normItemsList l = .ok its := by
  induction l with
  | nil => exact ⟨[], rfl⟩
  | cons v t ih =>
      rw [List.all_cons, Bool.and_eq_true] at h
      obtain ⟨its, hits⟩ := ih h.2
      cases v with
      | vdict d =>
          refine ⟨normItemOfRaw d :: its, ?_⟩
          unfold normItemsList
          rw [hits]
          rfl
      | vnull => exact absurd h.1 (by simp)
      | vstr sx => exact absurd h.1 (by simp)
      | vnum q => exact absurd h.1 (by simp)
      | vlist l2 => exact absurd h.1 (by simp)

theorem resolve_items_ok {e : RawDict} (h : itemsAllDicts e = true) :
    ∃ its, resolve_items e = .ok its := by
  unfold itemsAllDicts at h
  unfold resolve_items
  split
  · rename_i l heq
    rw [heq] at h
    by_cases hl : l.isEmpty
    · rw [if_pos hl]
      exact ⟨[], rfl⟩
    · rw [if_neg hl]
      exact normItemsList_ok l h
  · exact ⟨[], rfl⟩

theorem resolve_date_ok {e : RawDict} (h : rawTextOk e = true) :
    ∃ d, resolve_invoice_date e = .ok d := by
  unfold rawTextOk at h
  unfold resolve_invoice_date
  cases hp : parse_date_safe (dget e "Invoice Date") with
  | some d => exact ⟨some d, rfl⟩
  | none =>
      rcases hv : dgetD e "raw_text" (.vstr "") with _ | sx | q | l | dct
      · rw [hv] at h
        exact absurd h (by simp)
      · exact ⟨_, rfl⟩
      · rw [hv] at h
        exact absurd h (by simp)
      · rw [hv] at h
        exact absurd h (by simp)
      · rw [hv] at h
        exact absurd h (by simp)

/-- The fully-defaulted normalization of the empty raw mapping. -/
def c3default : NormInv :=
  { invoice_id := .vnull, raw_invoice_id := .vnull, invoice_date := none,
    supplier_gstin := .vnull, customer_gstin := .vnull, place_of_supply := .vnull,
    items := [], taxable_total := none, cgst := none, sgst := none, igst := none,
    total_tax := none, grand_total := none, raw_extracted := [] }

/-- Raw mapping whose `Items` list contains a non-dict entry: the items
loop calls `.get` on it and raises `AttributeError`. -/
def c3bad : RawDict := [("Items", .vlist [.vstr "x"])]

/-- C3 counterexample: `normalize_invoice` does raise on a mapping whose
`Items` list contains a non-dict entry. -/
theorem c3_counterexample :
    normalize_invoice c3bad = .error "AttributeError: value has no attribute get" := rfl

/-- `Except` success as a Boolean. -/
def exceptOk {ε α : Type} : Except ε α → Bool
  | .ok _ => true
  | .error _ => false

/-- C3 (amended): `normalize_invoice` never fails provided every entry of
a list-valued `Items` is itself a mapping and any `raw_text` present is
text; every unresolvable field then degrades to null, 0 or empty, as on
the empty mapping, whose normalization is all defaults. -/
theorem c3_amended :
    (∀ e : RawDict, itemsAllDicts e = true → rawTextOk e = true →
      exceptOk (normalize_invoice e) = true) ∧
    normalize_invoice [] = .ok c3default := by
  constructor
  · intro e hi hr
    obtain ⟨d, hd⟩ := resolve_date_ok hr
    obtain ⟨its, hits⟩ := resolve_items_ok hi
    unfold normalize_invoice
    rw [hd, hits]
    rfl
  · rfl

/-- Raw mapping with a dict item and a textual raw_text. -/
def c3w : RawDict :=
  [("Items", .vlist [.vdict [("Item Name", .vstr "Pen")]]), ("raw_text", .vstr "no date here")]

theorem c3_amended_witness :
    exceptOk (normalize_invoice c3w) = true ∧ normalize_invoice [] = .ok c3default :=
  ⟨c3_amended.1 c3w rfl rfl, c3_amended.2⟩

/-! ### C8 -/

/-- C8 counterexample: the ambiguous date "03/04/2024" is parsed with
`dayfirst=False`, giving month 3, day 4 — not the day-first reading
(day 3, month 4) the claim asserts. -/
theorem c8_counterexample :
    parse_date_safe (.vstr "03/04/2024") = some ⟨2024, 3, 4⟩ ∧
    (⟨2024, 3, 4⟩ : PyDate) ≠ ⟨2024, 4, 3⟩ := by
  exact ⟨rfl, by decide⟩

/-- C8 (amended): `parse_date_safe` resolves day/month ambiguity by
preferring month-first readings (the source passes `dayfirst=False`), so
"03/04/2024" is month 3, day 4; an unambiguous day-first form such as
"15/01/2024" is still read day 15, month 1 via the swap; and null or
unparsable text gives null. -/
theorem c8_amended :
    parse_date_safe (.vstr "03/04/2024") = some ⟨2024, 3, 4⟩ ∧
    parse_date_safe (.vstr "15/01/2024") = some ⟨2024, 1, 15⟩ ∧
    parse_date_safe (.vstr "hello") = none ∧
    parse_date_safe .vnull = none := by
  exact ⟨rfl, rfl, rfl, rfl⟩

/-! ### C10 -/

/-- C10: an empty batch gives an empty summary and empty breakdown
without failing, and `filing_assistant` on that empty summary returns
exactly one entry, for the period `"unknown"`, with `invoice_count` 0 and
every monetary total 0. -/
theorem c10_empty_batch :
    aggregate_invoices_for_period [] = ([], []) ∧
    ∃ ent, filing_assistant [] [] [] 0 = .ok [("unknown", ent)] ∧
      ent.invoice_count = 0 ∧ ent.total_taxable_value = 0 ∧ ent.total_tax = 0 ∧
      ent.total_invoice_value = 0 ∧ ent.tax_to_pay = 0 ∧ ent.anomalies = [] := by
  refine ⟨rfl, ⟨_, rfl, ?_, ?_, ?_, ?_, ?_, ?_⟩⟩ <;> rfl


/-! ### C2: association-list and loop lemmas -/

/-- The key list of an association-list dict. -/
def keys {β : Type} (d : List (String × β)) : List String := d.map Prod.fst

theorem keys_nil {β : Type} : keys ([] : List (String × β)) = [] := rfl

theorem keys_cons {β : Type} (k : String) (v : β) (t : List (String × β)) :
    keys ((k, v) :: t) = k :: keys t := rfl

theorem bind_ok_eq {ε α β : Type} {e : Except ε α} {a : α} (h : e = .ok a)
    (f : α → Except ε β) : (e >>= f) = f a := by
  rw [h]
  rfl

theorem dictModifyE_mem {β : Type} {k : String} (f : β → β) {d : List (String × β)}
    (h : k ∈ keys d) :
    ∃ d', dictModifyE k f d = .ok d' ∧ keys d' = keys d := by
  induction d with
  | nil => simp [keys] at h
  | cons kv t ih =>
      obtain ⟨k', v⟩ := kv
      by_cases hk : k' = k
      · exact ⟨(k', f v) :: t, by simp [dictModifyE, hk], rfl⟩
      · have h' : k ∈ keys t := by
          rw [keys_cons] at h
          rcases List.mem_cons.mp h with h | h
          · exact absurd h.symm hk
          · exact h
        obtain ⟨t', ht, hkeys⟩ := ih h'
        refine ⟨(k', v) :: t', ?_, ?_⟩
        · unfold dictModifyE
          rw [if_neg hk, ht]
          rfl
        · rw [keys_cons, keys_cons, hkeys]

theorem appendAnom_mem {d : List (String × FilingEntry)} {period : String}
    {inv : NormInv} {issue : String} (h : period ∈ keys d) :
    ∃ d', appendAnom d period inv issue = .ok d' ∧ keys d' = keys d :=
  dictModifyE_mem _ h

theorem anomStep1_ok {inv : NormInv} {d : List (String × FilingEntry)}
    (h : invPeriod inv ∈ keys d) :
    ∃ d', anomStep1 inv d = .ok d' ∧ keys d' = keys d := by
  unfold anomStep1
  split
  · exact appendAnom_mem h
  · exact ⟨d, rfl, rfl⟩

theorem anomStep2_ok {inv : NormInv} {d : List (String × FilingEntry)}
    (h : invPeriod inv ∈ keys d) :
    ∃ d', anomStep2 inv d = .ok d' ∧ keys d' = keys d := by
  unfold anomStep2
  split
  · exact appendAnom_mem h
  · exact ⟨d, rfl, rfl⟩

theorem hsnLoop_ok (period : String) (inv : NormInv) (items : List NormItem) :
    ∀ d : List (String × FilingEntry), period ∈ keys d →
    ∃ d', (items.foldlM (fun acc it =>
      if !truthyOS it.hsn then
        appendAnom acc period inv ("Missing HSN for item '" ++ it.description ++ "'")
      else .ok acc) d) = .ok d' ∧ keys d' = keys d := by
  induction items with
  | nil => exact fun d _ => ⟨d, rfl, rfl⟩
  | cons it t ih =>
      intro d h
      by_cases hh : (!truthyOS it.hsn) = true
      · obtain ⟨d1, hd1, hk1⟩ := @appendAnom_mem d period inv
          ("Missing HSN for item '" ++ it.description ++ "'") h
        obtain ⟨d2, hd2, hk2⟩ := ih d1 (by rw [hk1]; exact h)
        refine ⟨d2, ?_, by rw [hk2, hk1]⟩
        rw [List.foldlM_cons, if_pos hh, bind_ok_eq hd1]
        exact hd2
      · obtain ⟨d2, hd2, hk2⟩ := ih d h
        refine ⟨d2, ?_, hk2⟩
        rw [List.foldlM_cons, if_neg hh, bind_ok_eq rfl]
        exact hd2

theorem anomStep3_ok {inv : NormInv} {d : List (String × FilingEntry)}
    (h : invPeriod inv ∈ keys d) :
    ∃ d', anomStep3 inv d = .ok d' ∧ keys d' = keys d := by
  unfold anomStep3
  split
  · exact hsnLoop_ok (invPeriod inv) inv inv.items d h
  · exact ⟨d, rfl, rfl⟩

theorem anomStep4_ok {inv : NormInv} {d : List (String × FilingEntry)}
    (h : invPeriod inv ∈ keys d) :
    ∃ d', anomStep4 inv d = .ok d' ∧ keys d' = keys d := by
  unfold anomStep4
  split
  · split
    · exact appendAnom_mem h
    · exact ⟨d, rfl, rfl⟩
  · exact ⟨d, rfl, rfl⟩

theorem anomStep5_ok {inv : NormInv} {d : List (String × FilingEntry)}
    (h : invPeriod inv ∈ keys d) :
    ∃ d', anomStep5 inv d = .ok d' ∧ keys d' = keys d := by
  unfold anomStep5
  split
  · exact appendAnom_mem h
  · exact ⟨d, rfl, rfl⟩

theorem anomaliesStep_ok {d : List (String × FilingEntry)} {inv : NormInv}
    (h : invPeriod inv ∈ keys d) :
    ∃ d', anomaliesStep d inv = .ok d' ∧ keys d' = keys d := by
  obtain ⟨d1, h1, k1⟩ := anomStep1_ok h
  have hm1 : invPeriod inv ∈ keys d1 := by rw [k1]; exact h
  obtain ⟨d2, h2, k2⟩ := anomStep2_ok hm1
  have hm2 : invPeriod inv ∈ keys d2 := by rw [k2, k1]; exact h
  obtain ⟨d3, h3, k3⟩ := anomStep3_ok hm2
  have hm3 : invPeriod inv ∈ keys d3 := by rw [k3, k2, k1]; exact h
  obtain ⟨d4, h4, k4⟩ := anomStep4_ok hm3
  have hm4 : invPeriod inv ∈ keys d4 := by rw [k4, k3, k2, k1]; exact h
  obtain ⟨d5, h5, k5⟩ := anomStep5_ok hm4
  refine ⟨d5, ?_, by rw [k5, k4, k3, k2, k1]⟩
  unfold anomaliesStep
  rw [bind_ok_eq h1, bind_ok_eq h2, bind_ok_eq h3, bind_ok_eq h4]
  exact h5

theorem applyRow_ok {acc : List (String × FilingEntry)} {row : SummaryRow}
    (h : row.period ∈ keys acc) :
    ∃ acc', applyRow acc row = .ok acc' ∧ keys acc' = keys acc := by
  obtain ⟨a1, h1, k1⟩ := @dictModifyE_mem FilingEntry row.period (fun ent =>
    { ent with total_taxable_value := row.total_taxable_value
               total_tax := row.total_tax
               total_invoice_value := row.total_invoice_value
               invoice_count := row.invoice_count
               tax_to_pay := row.total_tax }) acc h
  have hma : row.period ∈ keys a1 := by rw [k1]; exact h
  obtain ⟨a2, h2, k2⟩ := @dictModifyE_mem FilingEntry row.period (fun ent =>
    { ent with recommendation :=
        if 0 < row.invoice_count ∨ 0 < row.total_tax then "File return for this period."
        else "No filing required (nil)." }) a1 hma
  refine ⟨a2, ?_, by rw [k2, k1]⟩
  unfold applyRow
  rw [bind_ok_eq h1]
  exact h2

theorem rowLoop_ok (rows : List SummaryRow) :
    ∀ acc : List (String × FilingEntry), (∀ r ∈ rows, r.period ∈ keys acc) →
    ∃ acc', rows.foldlM applyRow acc = .ok acc' ∧ keys acc' = keys acc := by
  induction rows with
  | nil => exact fun acc _ => ⟨acc, rfl, rfl⟩
  | cons r t ih =>
      intro acc h
      obtain ⟨a1, h1, k1⟩ := applyRow_ok (h r (by simp))
      obtain ⟨a2, h2, k2⟩ := ih a1 (fun r' hr' => by
        rw [k1]
        exact h r' (by simp [hr']))
      refine ⟨a2, ?_, by rw [k2, k1]⟩
      rw [List.foldlM_cons, bind_ok_eq h1]
      exact h2

theorem invLoop_ok (invs : List NormInv) :
    ∀ acc : List (String × FilingEntry), (∀ inv ∈ invs, invPeriod inv ∈ keys acc) →
    ∃ acc', invs.foldlM anomaliesStep acc = .ok acc' ∧ keys acc' = keys acc := by
  induction invs with
  | nil => exact fun acc _ => ⟨acc, rfl, rfl⟩
  | cons inv t ih =>
      intro acc h
      obtain ⟨a1, h1, k1⟩ := anomaliesStep_ok (h inv (by simp))
      obtain ⟨a2, h2, k2⟩ := ih a1 (fun i hi => by
        rw [k1]
        exact h i (by simp [hi]))
      refine ⟨a2, ?_, by rw [k2, k1]⟩
      rw [List.foldlM_cons, bind_ok_eq h1]
      exact h2

theorem keys_dictAssign {β : Type} (d : List (String × β)) (k : String) (v : β) :
    keys (dictAssign d k v) = if k ∈ keys d then keys d else keys d ++ [k] := by
  induction d with
  | nil => simp [dictAssign, upd, keys]
  | cons kv t ih =>
      obtain ⟨k', w⟩ := kv
      by_cases hk : k' = k
      · subst hk
        simp [dictAssign, upd, keys_cons]
      · unfold dictAssign upd
        rw [if_neg hk]
        have ih' := ih
        unfold dictAssign at ih'
        rw [keys_cons, keys_cons, ih']
        by_cases hm : k ∈ keys t
        · rw [if_pos hm, if_pos (by simp [hm])]
        · rw [if_neg hm, if_neg (by simp [hm, Ne.symm hk])]
          rw [List.cons_append]

theorem keys_foldl_assign : ∀ (periods : List String) (acc : List (String × FilingEntry)),
    periods.Nodup → (∀ p ∈ periods, p ∉ keys acc) →
    keys (periods.foldl (fun a p => dictAssign a p ({} : FilingEntry)) acc) =
      keys acc ++ periods
  | [], acc, _, _ => by simp
  | p :: t, acc, hnd, hdisj => by
      rw [List.foldl_cons]
      have hp : p ∉ keys acc := hdisj p (by simp)
      have hka : keys (dictAssign acc p {}) = keys acc ++ [p] := by
        rw [keys_dictAssign, if_neg hp]
      have hdisj' : ∀ q ∈ t, q ∉ keys (dictAssign acc p {}) := by
        intro q hq
        rw [hka]
        simp only [List.mem_append, List.mem_singleton]
        rintro (hqa | rfl)
        · exact hdisj q (by simp [hq]) hqa
        · exact (List.nodup_cons.mp hnd).1 hq
      rw [keys_foldl_assign t (dictAssign acc p {}) (List.Nodup.of_cons hnd) hdisj', hka]
      simp

theorem keys_seedEntries (periods : List String) (hnd : periods.Nodup) :
    keys (seedEntries periods) = periods := by
  have h := keys_foldl_assign periods [] hnd (by simp [keys])
  rw [seedEntries]
  rw [h]
  rfl

theorem keys_map_finalize (rb : RateBreakdown) (t : ℚ)
    (pp : List (String × FilingEntry)) :
    keys (pp.map (finalizeEntry rb t)) = keys pp := by
  unfold keys
  rw [List.map_map]
  have h : (Prod.fst ∘ finalizeEntry rb t) = Prod.fst := funext (fun kv => rfl)
  rw [h]


theorem aggregate_summary_eq {invs : List NormInv} (h : invs ≠ []) :
    (aggregate_invoices_for_period invs).1 =
      (List.insertionSort (fun a b : String => a ≤ b)
        (((invs.map rowOf).map (fun r => r.period)).dedup)).map
        (summaryRowFor (invs.map rowOf)) := by
  simp only [aggregate_invoices_for_period]
  have hne : (invs.map rowOf).isEmpty = false := by
    cases invs with
    | nil => exact absurd rfl h
    | cons a t => simp
  rw [hne]
  rfl

theorem aggregate_rb_eq (invs : List NormInv) :
    (aggregate_invoices_for_period invs).2 = (contribsOf invs).foldl rbInsert [] := by
  simp only [aggregate_invoices_for_period]
  by_cases hne : (invs.map rowOf).isEmpty
  · rw [hne]
    have : invs = [] := by
      cases invs with
      | nil => rfl
      | cons a t => simp at hne
    subst this
    rfl
  · rw [Bool.eq_false_iff.mpr hne]
    rfl

/-- Membership of an invoice's period key in the sorted aggregation periods. -/
theorem invPeriod_mem_periods {invs : List NormInv} {inv : NormInv} (h : inv ∈ invs) :
    invPeriod inv ∈ List.insertionSort (fun a b : String => a ≤ b)
      (((invs.map rowOf).map (fun r => r.period)).dedup) := by
  apply (List.perm_insertionSort _ _).mem_iff.mpr
  apply List.mem_dedup.mpr
  exact List.mem_map.mpr ⟨rowOf inv, List.mem_map.mpr ⟨inv, h, rfl⟩, rfl⟩

/-- C2 counterexample data: a summary whose only period is 2024-01 but an
invoice (with no anomalies) whose derived period key is 2024-02. -/
def c2row : SummaryRow :=
  { period := "2024-01", invoice_count := 1, total_taxable_value := 1, total_igst := 0,
    total_cgst := 0, total_sgst := 0, total_tax := 1, total_invoice_value := 2 }

/-- An anomaly-free invoice dated 2024-02. -/
def c2inv : NormInv :=
  { invoice_id := .vstr "c", raw_invoice_id := .vnull, invoice_date := some ⟨2024, 2, 1⟩,
    supplier_gstin := .vstr "24AAAAA0000A1Z5", customer_gstin := .vstr "27BBBBB1111B2Z6",
    place_of_supply := .vnull, items := [], taxable_total := none, cgst := none,
    sgst := none, igst := none, total_tax := none, grand_total := none,
    classification_inter_state := some true }

/-- C2 counterexample: for this summary/invoice pair, `filing_assistant`
succeeds but the period 2024-02, derived from the invoice, is not a key
of the returned mapping — so a period appearing only via an invoice does
not get a FilingEntry. -/
theorem c2_counterexample :
    ∃ m, filing_assistant [c2row] [] [c2inv] 0 = .ok m ∧
      invPeriod c2inv = "2024-02" ∧
      keys m = ["2024-01"] ∧
      "2024-02" ∉ keys m := by
  refine ⟨_, rfl, rfl, rfl, ?_⟩
  exact (by decide : ("2024-02" : String) ∉ (["2024-01"] : List String))

/-- C2 (amended): when `filing_assistant` is applied to the summary and
rate breakdown produced by `aggregate_invoices_for_period` on the same
invoice sequence — as the pipeline does — it does not fail, and every
period appearing in the summary or derived from at least one invoice is
a key of the result, with exactly one FilingEntry (the key list has no
duplicates).  For a summary not covering some invoice's period the
guarantee fails (see the counterexample): such a period is missing from
the result, and an anomaly append for it raises `KeyError`. -/
theorem c2_amended (invs : List NormInv) (thr : ℚ) :
    ∃ m, filing_assistant (aggregate_invoices_for_period invs).1
        (aggregate_invoices_for_period invs).2 invs thr = .ok m ∧
      (keys m).Nodup ∧
      (∀ p, ((∃ row ∈ (aggregate_invoices_for_period invs).1, row.period = p) ∨
             (∃ inv ∈ invs, invPeriod inv = p)) → p ∈ keys m) := by
  cases invs with
  | nil =>
      refine ⟨_, rfl, ?_, ?_⟩
      · exact List.nodup_singleton "unknown"
      · rintro p (⟨row, hrow, _⟩ | ⟨inv, hinv, _⟩)
        · simp [aggregate_invoices_for_period] at hrow
        · simp at hinv
  | cons inv₀ tl =>
      have hne : (inv₀ :: tl) ≠ ([] : List NormInv) := by simp
      have hsum := aggregate_summary_eq hne
      set rows := (inv₀ :: tl).map rowOf with hrows
      set P := List.insertionSort (fun a b : String => a ≤ b)
        ((rows.map (fun r => r.period)).dedup) with hP
      have hPnodup : P.Nodup :=
        (List.perm_insertionSort _ _).nodup_iff.mpr (List.nodup_dedup _)
      have hPne : P ≠ [] :=
        List.ne_nil_of_mem (invPeriod_mem_periods (List.mem_cons_self inv₀ tl))
      have hsumne : ((aggregate_invoices_for_period (inv₀ :: tl)).1).isEmpty = false := by
        rw [hsum]
        cases hPc : P with
        | nil => exact absurd hPc hPne
        | cons a b => simp
      have hsper : ((aggregate_invoices_for_period (inv₀ :: tl)).1).map
          (fun r => r.period) = P := by
        rw [hsum, List.map_map]
        have : ((fun r : SummaryRow => r.period) ∘ summaryRowFor rows) = id :=
          funext (fun p => rfl)
        rw [this, List.map_id]
      have hkeys0 : keys (seedEntries (((aggregate_invoices_for_period (inv₀ :: tl)).1).map
          (fun r => r.period))) = P := by
        rw [hsper]
        exact keys_seedEntries P hPnodup
      obtain ⟨pp1, hpp1, hk1⟩ := rowLoop_ok ((aggregate_invoices_for_period (inv₀ :: tl)).1)
        (seedEntries (((aggregate_invoices_for_period (inv₀ :: tl)).1).map (fun r => r.period)))
        (by
          intro r hr
          rw [hkeys0]
          rw [hsum] at hr
          obtain ⟨p, hp, hpr⟩ := List.mem_map.mp hr
          rw [← hpr]
          exact hp)
      obtain ⟨pp2, hpp2, hk2⟩ := invLoop_ok (inv₀ :: tl) pp1
        (by
          intro i hi
          rw [hk1, hkeys0]
          exact invPeriod_mem_periods hi)
      refine ⟨pp2.map (finalizeEntry (aggregate_invoices_for_period (inv₀ :: tl)).2 thr),
        ?_, ?_, ?_⟩
      · unfold filing_assistant
        rw [hsumne]
        simp only [Bool.false_eq_true, if_false]
        rw [bind_ok_eq hpp1, bind_ok_eq hpp2]
      · rw [keys_map_finalize, hk2, hk1, hkeys0]
        exact hPnodup
      · intro p hp
        rw [keys_map_finalize, hk2, hk1, hkeys0]
        rcases hp with ⟨row, hrow, hrp⟩ | ⟨i, hi, hip⟩
        · rw [← hrp]
          rw [hsum] at hrow
          obtain ⟨q, hq, hqr⟩ := List.mem_map.mp hrow
          rw [← hqr]
          exact hq
        · rw [← hip]
          exact invPeriod_mem_periods hi

/-- One concrete invoice for the C2 witness. -/
def c2winv : NormInv :=
  { invoice_id := .vstr "w", raw_invoice_id := .vnull, invoice_date := some ⟨2024, 5, 2⟩,
    supplier_gstin := .vnull, customer_gstin := .vnull, place_of_supply := .vnull,
    items := [], taxable_total := some 10, cgst := none, sgst := none, igst := none,
    total_tax := some 1, grand_total := none }

theorem c2_amended_witness :
    ∃ m, filing_assistant (aggregate_invoices_for_period [c2winv]).1
        (aggregate_invoices_for_period [c2winv]).2 [c2winv] 0 = .ok m ∧
      (keys m).Nodup ∧ "2024-05" ∈ keys m := by
  obtain ⟨m, hm, hnd, hmem⟩ := c2_amended [c2winv] 0
  exact ⟨m, hm, hnd, hmem "2024-05" (Or.inr ⟨c2winv, by simp, rfl⟩)⟩






/-! ### C5: order independence of aggregation -/

theorem alookup_upd_self {κ β : Type} [DecidableEq κ] (k : κ) (f : β → β) (d : β)
    (l : List (κ × β)) :
    alookup (upd k f d l) k = some (f ((alookup l k).getD d)) := by
  induction l with
  | nil =>
      unfold upd
      simp [alookup]
  | cons kv t ih =>
      obtain ⟨k', v⟩ := kv
      by_cases hk : k' = k
      · subst hk
        unfold upd
        rw [if_pos rfl]
        simp [alookup]
      · unfold upd
        rw [if_neg hk]
        unfold alookup
        rw [if_neg hk, if_neg hk, ih]

theorem alookup_upd_other {κ β : Type} [DecidableEq κ] {k k₀ : κ} (h : k₀ ≠ k)
    (f : β → β) (d : β) (l : List (κ × β)) :
    alookup (upd k f d l) k₀ = alookup l k₀ := by
  have hne : ¬(k = k₀) := fun he => h he.symm
  induction l with
  | nil =>
      unfold upd alookup
      rw [if_neg hne]
      rfl
  | cons kv t ih =>
      obtain ⟨k', v⟩ := kv
      by_cases hk : k' = k
      · subst hk
        unfold upd
        rw [if_pos rfl]
        unfold alookup
        rw [if_neg hne, if_neg hne]
      · unfold upd
        rw [if_neg hk]
        unfold alookup
        by_cases hkk : k' = k₀
        · rw [if_pos hkk, if_pos hkk]
        · rw [if_neg hkk, if_neg hkk, ih]

/-- The period test of a rate-breakdown contribution. -/
def contribMatchP (p : String) (c : Contrib) : Bool := decide (c.period = p)

/-- The period-and-rate test of a rate-breakdown contribution. -/
def contribMatchPR (p : String) (r : Option ℚ) (c : Contrib) : Bool :=
  decide (c.period = p) && decide (c.rate = r)

/-- Total taxable value contributed at a given period and rate. -/
def sumPR (cs : List Contrib) (p : String) (r : Option ℚ) : ℚ :=
  ((cs.filter (contribMatchPR p r)).map (fun c => c.taxable)).sum

/-- Two-level lookup into a rate breakdown (`none` = period absent,
`some none` = period present but rate absent). -/
def rbGet (rb : RateBreakdown) (p : String) (r : Option ℚ) : Option (Option ℚ) :=
  (alookup rb p).map (fun rd => alookup rd r)

theorem contribMatchP_false {c : Contrib} {p : String} (h : ¬ c.period = p) :
    contribMatchP p c = false := by
  unfold contribMatchP
  exact decide_eq_false h

theorem contribMatchP_true {c : Contrib} : contribMatchP c.period c = true := by
  unfold contribMatchP
  exact decide_eq_true rfl

theorem contribMatchPR_false_p {c : Contrib} {p : String} {r : Option ℚ}
    (h : ¬ c.period = p) : contribMatchPR p r c = false := by
  unfold contribMatchPR
  rw [decide_eq_false h, Bool.false_and]

theorem contribMatchPR_false_r {c : Contrib} {p : String} {r : Option ℚ}
    (h : ¬ c.rate = r) : contribMatchPR p r c = false := by
  unfold contribMatchPR
  rw [decide_eq_false h, Bool.and_false]

theorem contribMatchPR_true {c : Contrib} : contribMatchPR c.period c.rate c = true := by
  unfold contribMatchPR
  rw [decide_eq_true rfl, decide_eq_true rfl]
  rfl

theorem any_append_single {α : Type} (l : List α) (c : α) (f : α → Bool) :
    (l ++ [c]).any f = (l.any f || f c) := by
  rw [List.any_append]
  simp [List.any_cons]

theorem sumPR_append_single (cs : List Contrib) (c : Contrib) (p : String) (r : Option ℚ) :
    sumPR (cs ++ [c]) p r =
      sumPR cs p r + (if contribMatchPR p r c then c.taxable else 0) := by
  unfold sumPR
  rw [List.filter_append, List.map_append, List.sum_append]
  congr 1
  cases h : contribMatchPR p r c with
  | false => simp [List.filter_cons, h]
  | true => simp [List.filter_cons, h]

theorem anyPR_anyP {cs : List Contrib} {p : String} {r : Option ℚ}
    (h : cs.any (contribMatchPR p r) = true) : cs.any (contribMatchP p) = true := by
  rw [List.any_eq_true] at h ⊢
  obtain ⟨c, hc, hm⟩ := h
  unfold contribMatchPR at hm
  rw [Bool.and_eq_true] at hm
  exact ⟨c, hc, hm.1⟩

theorem sumPR_zero {cs : List Contrib} {p : String} {r : Option ℚ}
    (h : cs.any (contribMatchPR p r) = false) : sumPR cs p r = 0 := by
  unfold sumPR
  have hf : cs.filter (contribMatchPR p r) = [] := by
    rw [List.filter_eq_nil_iff]
    rw [List.any_eq_false] at h
    exact fun a ha => by simp [h a ha]
  rw [hf]
  rfl

theorem rbGet_build_inner (p : String) (r : Option ℚ) (cs : List Contrib)
    (ih : rbGet (cs.foldl rbInsert []) p r =
      if cs.any (contribMatchP p) = true then
        some (if cs.any (contribMatchPR p r) = true then some (sumPR cs p r) else none)
      else none) :
    alookup ((alookup (cs.foldl rbInsert []) p).getD []) r =
      if cs.any (contribMatchPR p r) = true then some (sumPR cs p r) else none := by
  rcases halo : alookup (cs.foldl rbInsert []) p with _ | rd₀
  · simp only [rbGet] at ih
    rw [halo, Option.map_none'] at ih
    have hnoP : cs.any (contribMatchP p) = false := by
      by_contra hc
      rw [Bool.not_eq_false] at hc
      rw [hc, if_pos rfl] at ih
      exact Option.noConfusion ih
    have hnoPR : cs.any (contribMatchPR p r) = false := by
      by_contra hc
      rw [Bool.not_eq_false] at hc
      rw [anyPR_anyP hc] at hnoP
      exact Bool.noConfusion hnoP
    rw [hnoPR, if_neg Bool.false_ne_true]
    rfl
  · simp only [rbGet] at ih
    rw [halo, Option.map_some'] at ih
    have hP : cs.any (contribMatchP p) = true := by
      by_contra hc
      have hPf : cs.any (contribMatchP p) = false := by simpa using hc
      rw [hPf, if_neg Bool.false_ne_true] at ih
      exact Option.noConfusion ih
    rw [hP, if_pos rfl] at ih
    exact Option.some.inj ih

theorem rbGet_build (p : String) (r : Option ℚ) (cs : List Contrib) :
    rbGet (cs.foldl rbInsert []) p r =
      if cs.any (contribMatchP p) = true then
        some (if cs.any (contribMatchPR p r) = true then some (sumPR cs p r) else none)
      else none := by
  induction cs using List.reverseRecOn with
  | nil => rfl
  | append_singleton cs c ih =>
      rw [List.foldl_append, List.foldl_cons, List.foldl_nil]
      by_cases hp : c.period = p
      · subst hp
        have hanyP : (cs ++ [c]).any (contribMatchP c.period) = true := by
          rw [any_append_single, contribMatchP_true, Bool.or_true]
        have houter : alookup (rbInsert (cs.foldl rbInsert []) c) c.period =
            some (upd c.rate (fun x => x + c.taxable) 0
              ((alookup (cs.foldl rbInsert []) c.period).getD [])) := by
          unfold rbInsert
          exact alookup_upd_self c.period _ [] _
        have hinner := rbGet_build_inner c.period r cs ih
        simp only [rbGet]
        rw [houter, Option.map_some', hanyP, if_pos rfl]
        congr 1
        by_cases hr : c.rate = r
        · subst hr
          rw [alookup_upd_self, any_append_single, contribMatchPR_true, Bool.or_true,
            if_pos rfl, sumPR_append_single, contribMatchPR_true, if_pos rfl]
          by_cases hPR : cs.any (contribMatchPR c.period c.rate) = true
          · rw [if_pos hPR] at hinner
            rw [hinner]
            rfl
          · rw [if_neg hPR] at hinner
            have hPRf : cs.any (contribMatchPR c.period c.rate) = false := by
              simpa using hPR
            rw [hinner, sumPR_zero hPRf]
            rfl
        · have hne : r ≠ c.rate := fun he => hr he.symm
          rw [alookup_upd_other hne]
          have h2 : (cs ++ [c]).any (contribMatchPR c.period r) =
              cs.any (contribMatchPR c.period r) := by
            rw [any_append_single, contribMatchPR_false_r hr, Bool.or_false]
          have h3 : sumPR (cs ++ [c]) c.period r = sumPR cs c.period r := by
            rw [sumPR_append_single, contribMatchPR_false_r hr,
              if_neg Bool.false_ne_true, add_zero]
          rw [h2, h3, hinner]
      · have houter : alookup (rbInsert (cs.foldl rbInsert []) c) p =
            alookup (cs.foldl rbInsert []) p := by
          unfold rbInsert
          exact alookup_upd_other (fun he => hp he.symm) _ [] _
        have h1 : (cs ++ [c]).any (contribMatchP p) = cs.any (contribMatchP p) := by
          rw [any_append_single, contribMatchP_false hp, Bool.or_false]
        have h2 : (cs ++ [c]).any (contribMatchPR p r) = cs.any (contribMatchPR p r) := by
          rw [any_append_single, contribMatchPR_false_p hp, Bool.or_false]
        have h3 : sumPR (cs ++ [c]) p r = sumPR cs p r := by
          rw [sumPR_append_single, contribMatchPR_false_p hp,
            if_neg Bool.false_ne_true, add_zero]
        simp only [rbGet] at ih ⊢
        rw [h1, h2, h3, houter, ih]

theorem perm_any {α : Type} {l₁ l₂ : List α} (h : l₁.Perm l₂) (f : α → Bool) :
    l₁.any f = l₂.any f := by
  rw [Bool.eq_iff_iff, List.any_eq_true, List.any_eq_true]
  constructor
  · rintro ⟨x, hx, hfx⟩
    exact ⟨x, h.mem_iff.mp hx, hfx⟩
  · rintro ⟨x, hx, hfx⟩
    exact ⟨x, h.mem_iff.mpr hx, hfx⟩

theorem sumPR_perm {cs₁ cs₂ : List Contrib} (h : cs₁.Perm cs₂) (p : String) (r : Option ℚ) :
    sumPR cs₁ p r = sumPR cs₂ p r :=
  ((h.filter _).map _).sum_eq

theorem perm_contribs {l₁ l₂ : List NormInv} (h : l₁.Perm l₂) :
    (contribsOf l₁).Perm (contribsOf l₂) :=
  h.flatMap_right _

theorem summaryRowFor_perm {rows₁ rows₂ : List InvRow} (h : rows₁.Perm rows₂)
    (p : String) : summaryRowFor rows₁ p = summaryRowFor rows₂ p := by
  have hg : (rows₁.filter (fun r => decide (r.period = p))).Perm
      (rows₂.filter (fun r => decide (r.period = p))) := h.filter _
  simp only [summaryRowFor, SummaryRow.mk.injEq]
  refine ⟨trivial, ?_, ?_, ?_, ?_, ?_, ?_, ?_⟩
  · exact (hg.filter _).length_eq
  · exact congrArg pyRound2 (hg.map _).sum_eq
  · exact congrArg pyRound2 (hg.map _).sum_eq
  · exact congrArg pyRound2 (hg.map _).sum_eq
  · exact congrArg pyRound2 (hg.map _).sum_eq
  · exact congrArg pyRound2 (hg.map _).sum_eq
  · exact congrArg pyRound2 (hg.map _).sum_eq

/-- Python dict equality for rate breakdowns: the same period keys, and
inside each period the same rate keys with equal summed taxable values. -/
def rbEquiv (rb₁ rb₂ : RateBreakdown) : Prop :=
  ∀ p r, rbGet rb₁ p r = rbGet rb₂ p r

/-- C5: aggregation is order-independent — permuting the invoice batch
yields the same grouped period summary (equal as the sorted row list)
and an equal rate breakdown (same period keys, same rate keys inside
each period, and equal accumulated taxable sums). -/
theorem c5_aggregation_order_independent (l₁ l₂ : List NormInv) (hperm : l₁.Perm l₂) :
    (aggregate_invoices_for_period l₁).1 = (aggregate_invoices_for_period l₂).1 ∧
    rbEquiv (aggregate_invoices_for_period l₁).2 (aggregate_invoices_for_period l₂).2 := by
  constructor
  · by_cases h1 : l₁ = []
    · subst h1
      have h2 : l₂ = [] := List.nil_perm.mp hperm
      subst h2
      rfl
    · have h2 : l₂ ≠ [] := by
        intro hnil
        subst hnil
        exact h1 (List.perm_nil.mp hperm)
      rw [aggregate_summary_eq h1, aggregate_summary_eq h2]
      have hrows : (l₁.map rowOf).Perm (l₂.map rowOf) := hperm.map _
      have hsorted : List.insertionSort (fun a b : String => a ≤ b)
          (((l₁.map rowOf).map (fun r => r.period)).dedup) =
          List.insertionSort (fun a b : String => a ≤ b)
          (((l₂.map rowOf).map (fun r => r.period)).dedup) := by
        have hperm2 : (List.insertionSort (fun a b : String => a ≤ b)
            (((l₁.map rowOf).map (fun r => r.period)).dedup)).Perm
            (List.insertionSort (fun a b : String => a ≤ b)
            (((l₂.map rowOf).map (fun r => r.period)).dedup)) :=
          (List.perm_insertionSort _ _).trans
            (((hrows.map _).dedup).trans (List.perm_insertionSort _ _).symm)
        exact List.eq_of_perm_of_sorted hperm2
          (List.sorted_insertionSort _ _) (List.sorted_insertionSort _ _)
      rw [hsorted]
      exact List.map_congr_left (fun q _ => summaryRowFor_perm hrows q)
  · intro p r
    rw [aggregate_rb_eq, aggregate_rb_eq, rbGet_build, rbGet_build]
    have hc : (contribsOf l₁).Perm (contribsOf l₂) := perm_contribs hperm
    rw [perm_any hc (contribMatchP p), perm_any hc (contribMatchPR p r),
      sumPR_perm hc p r]


/-- A concrete invoice (January 2024, one 18%-rate item) for the C5 witness. -/
def c5a : NormInv :=
  { invoice_id := .vstr "A1", raw_invoice_id := .vnull, invoice_date := some ⟨2024, 1, 5⟩,
    supplier_gstin := .vnull, customer_gstin := .vnull, place_of_supply := .vnull,
    items := [{ description := "x", hsn := some "1234", qty := 1, unit_price := 100,
                line_total := some 100, gst_rate := some 18, gst_amount := some 18 }],
    taxable_total := some 100, cgst := none, sgst := none, igst := some 18,
    total_tax := some 18, grand_total := some 118 }

/-- A second concrete invoice (January 2024, one 5%-rate item) for the C5 witness. -/
def c5b : NormInv :=
  { invoice_id := .vstr "B1", raw_invoice_id := .vnull, invoice_date := some ⟨2024, 1, 9⟩,
    supplier_gstin := .vnull, customer_gstin := .vnull, place_of_supply := .vnull,
    items := [{ description := "y", hsn := some "9876", qty := 2, unit_price := 25,
                line_total := some 50, gst_rate := some 5, gst_amount := some (5/2) }],
    taxable_total := some 50, cgst := none, sgst := none, igst := some (5/2),
    total_tax := some (5/2), grand_total := some (105/2) }

/-- C5 witness: swapping two concrete invoices is a permutation, and the
aggregation of the swapped batch has the same summary and an equivalent
rate breakdown. -/
theorem c5_witness :
    ([c5a, c5b] : List NormInv).Perm [c5b, c5a] ∧
    ((aggregate_invoices_for_period [c5a, c5b]).1 =
        (aggregate_invoices_for_period [c5b, c5a]).1 ∧
      rbEquiv (aggregate_invoices_for_period [c5a, c5b]).2
        (aggregate_invoices_for_period [c5b, c5a]).2) :=
  ⟨List.Perm.swap c5b c5a [],
    c5_aggregation_order_independent [c5a, c5b] [c5b, c5a] (List.Perm.swap c5b c5a [])⟩

end ReportGen
